import Mathlib

/-!
Verification of the scholarly-web-annotation-server core: the structural
validator and target/selector resolver (app/models/annotation.py) and the
target-graph engine (models/annotation_store.py), shallowly embedded.

Python JSON-like values are modelled by `Val`; Python dicts are association
lists with first-key-wins lookup; Python exceptions are modelled by `PyExc`
and fallible code returns `Except PyExc _`.  Mutation of the
Elasticsearch-backed store is modelled by explicit state passing of
`ESStore`; the external refresh effect is modelled by a counter of issued
refresh calls.  Unbounded recursion (the target-graph traversal has no
visited set) is modelled with a fuel parameter; running out of fuel
corresponds to Python's RecursionError.
-/

namespace SWAS

/-- A Python/JSON value, as the server's code manipulates them. -/
inductive Val where
  | vstr (s : String)
  | vint (n : Int)
  | vbool (b : Bool)
  | vnull
  | vlist (xs : List Val)
  | vdict (fields : List (String × Val))

mutual

/-- Structural (= Python `==`) equality test on values. -/
def Val.beq : Val → Val → Bool
  | .vstr a, .vstr b => a == b
  | .vint a, .vint b => a == b
  | .vbool a, .vbool b => a == b
  | .vnull, .vnull => true
  | .vlist xs, .vlist ys => Val.beqL xs ys
  | .vdict fs, .vdict gs => Val.beqD fs gs
  | _, _ => false

/-- Equality test on lists of values. -/
def Val.beqL : List Val → List Val → Bool
  | [], [] => true
  | x :: xs, y :: ys => Val.beq x y && Val.beqL xs ys
  | _, _ => false

/-- Equality test on dict field lists. -/
def Val.beqD : List (String × Val) → List (String × Val) → Bool
  | [], [] => true
  | (k, v) :: fs, (l, w) :: gs => k == l && Val.beq v w && Val.beqD fs gs
  | _, _ => false

end

mutual

theorem Val.beq_iff : ∀ a b : Val, Val.beq a b = true ↔ a = b
  | .vstr _, .vstr _ => by simp [Val.beq]
  | .vint _, .vint _ => by simp [Val.beq]
  | .vbool _, .vbool _ => by simp [Val.beq]
  | .vnull, .vnull => by simp [Val.beq]
  | .vlist xs, .vlist ys => by
      simp only [Val.beq, Val.beqL_iff xs ys]
      exact ⟨fun h => by rw [h], fun h => by injection h⟩
  | .vdict fs, .vdict gs => by
      simp only [Val.beq, Val.beqD_iff fs gs]
      exact ⟨fun h => by rw [h], fun h => by injection h⟩
  | .vstr _, .vint _ => by simp [Val.beq]
  | .vstr _, .vbool _ => by simp [Val.beq]
  | .vstr _, .vnull => by simp [Val.beq]
  | .vstr _, .vlist _ => by simp [Val.beq]
  | .vstr _, .vdict _ => by simp [Val.beq]
  | .vint _, .vstr _ => by simp [Val.beq]
  | .vint _, .vbool _ => by simp [Val.beq]
  | .vint _, .vnull => by simp [Val.beq]
  | .vint _, .vlist _ => by simp [Val.beq]
  | .vint _, .vdict _ => by simp [Val.beq]
  | .vbool _, .vstr _ => by simp [Val.beq]
  | .vbool _, .vint _ => by simp [Val.beq]
  | .vbool _, .vnull => by simp [Val.beq]
  | .vbool _, .vlist _ => by simp [Val.beq]
  | .vbool _, .vdict _ => by simp [Val.beq]
  | .vnull, .vstr _ => by simp [Val.beq]
  | .vnull, .vint _ => by simp [Val.beq]
  | .vnull, .vbool _ => by simp [Val.beq]
  | .vnull, .vlist _ => by simp [Val.beq]
  | .vnull, .vdict _ => by simp [Val.beq]
  | .vlist _, .vstr _ => by simp [Val.beq]
  | .vlist _, .vint _ => by simp [Val.beq]
  | .vlist _, .vbool _ => by simp [Val.beq]
  | .vlist _, .vnull => by simp [Val.beq]
  | .vlist _, .vdict _ => by simp [Val.beq]
  | .vdict _, .vstr _ => by simp [Val.beq]
  | .vdict _, .vint _ => by simp [Val.beq]
  | .vdict _, .vbool _ => by simp [Val.beq]
  | .vdict _, .vnull => by simp [Val.beq]
  | .vdict _, .vlist _ => by simp [Val.beq]

theorem Val.beqL_iff : ∀ xs ys : List Val, Val.beqL xs ys = true ↔ xs = ys
  | [], [] => by simp [Val.beqL]
  | x :: xs, y :: ys => by
      simp only [Val.beqL, Bool.and_eq_true, Val.beq_iff x y, Val.beqL_iff xs ys]
      constructor
      · rintro ⟨rfl, rfl⟩; rfl
      · intro h; injection h with h1 h2; exact ⟨h1, h2⟩
  | [], _ :: _ => by simp [Val.beqL]
  | _ :: _, [] => by simp [Val.beqL]

theorem Val.beqD_iff : ∀ fs gs : List (String × Val), Val.beqD fs gs = true ↔ fs = gs
  | [], [] => by simp [Val.beqD]
  | (k, v) :: fs, (l, w) :: gs => by
      simp only [Val.beqD, Bool.and_eq_true, Val.beq_iff v w, Val.beqD_iff fs gs, beq_iff_eq]
      constructor
      · rintro ⟨⟨rfl, rfl⟩, rfl⟩; rfl
      · intro h
        injection h with h1 h2
        exact ⟨⟨congrArg Prod.fst h1, (congrArg Prod.snd h1 : v = w)⟩, h2⟩
  | [], _ :: _ => by simp [Val.beqD]
  | _ :: _, [] => by simp [Val.beqD]

end

instance Val.instDecEq : DecidableEq Val := fun a b => decidable_of_iff _ (Val.beq_iff a b)

instance Val.instBEq : BEq Val := ⟨Val.beq⟩

theorem Val.beq_eq_decide (a b : Val) : (a == b) = decide (a = b) := by
  show Val.beq a b = decide (a = b)
  rcases Decidable.em (a = b) with h | h
  · rw [(Val.beq_iff a b).2 h]
    simp [h]
  · rcases hb : Val.beq a b with _ | _
    · simp [h]
    · exact absurd ((Val.beq_iff a b).1 hb) h

namespace Val

/-- Lookup of the first binding of `k` in a dict's field list. -/
def getFields (k : String) : List (String × Val) → Option Val
  | [] => none
  | f :: fs => if f.1 == k then some f.2 else getFields k fs

/-- Python `d[k]` lookup on a dict, as an Option (first binding wins). -/
def get (v : Val) (k : String) : Option Val :=
  match v with
  | .vdict fs => getFields k fs
  | _ => none

/-- Python `k in d` for a dict (key membership). -/
def hasKey (v : Val) (k : String) : Bool :=
  (v.get k).isSome

/-- Helper for `setKey`: replace the first binding of `k`, or append. -/
def setFields (k : String) (x : Val) : List (String × Val) → List (String × Val)
  | [] => [(k, x)]
  | f :: fs => if f.1 == k then (k, x) :: fs else f :: setFields k x fs

/-- Python `d[k] = x` on a dict. -/
def setKey (v : Val) (k : String) (x : Val) : Val :=
  match v with
  | .vdict fs => .vdict (setFields k x fs)
  | _ => v

/-- Helper for `delKey`: drop the first binding of `k`. -/
def delFields (k : String) : List (String × Val) → List (String × Val)
  | [] => []
  | f :: fs => if f.1 == k then fs else f :: delFields k fs

/-- Python `del d[k]` on a dict, ignoring a missing key (see `pyDelItem`
for the KeyError-raising form the source relies on). -/
def delKey (v : Val) (k : String) : Val :=
  match v with
  | .vdict fs => .vdict (delFields k fs)
  | _ => v

/-- Python truthiness of a value. -/
def truthy : Val → Bool
  | .vstr s => !(s == "")
  | .vint n => !(n == 0)
  | .vbool b => b
  | .vnull => false
  | .vlist xs => !xs.isEmpty
  | .vdict fs => !fs.isEmpty

/-- Python `type(v) == dict`. -/
def isDict : Val → Bool
  | .vdict _ => true
  | _ => false

/-- Python `type(v) == str`. -/
def isStr : Val → Bool
  | .vstr _ => true
  | _ => false

/-- Python `type(v) == list`. -/
def isList : Val → Bool
  | .vlist _ => true
  | _ => false

end Val

/-- Python exceptions the embedded code can raise.  `annotationError` is the
server's structured error class (message plus status code); the others are
unclassified builtin exceptions. -/
inductive PyExc where
  | annotationError (message : String) (status_code : Nat)
  | typeError
  | keyError (k : String)
  | valueError
  | indexError
  | recursionError
deriving DecidableEq

/-- Raise AnnotationError with its default 400 status code. -/
def annoErr (msg : String) : PyExc := .annotationError msg 400

/-- Python `str(v)`, in the minimal form needed for error-message
interpolation ("%s" formatting) in the source. -/
def pyStr : Val → String
  | .vstr s => s
  | .vint n => toString n
  | .vbool b => if b then "True" else "False"
  | .vnull => "None"
  | .vlist _ => "[...]"
  | .vdict _ => "{...}"

/-- Python `container[key]` with a string key: KeyError on a dict missing
the key, TypeError when the container does not support string keys. -/
def pyGetItem (container : Val) (k : String) : Except PyExc Val :=
  match container with
  | .vdict _ =>
    match container.get k with
    | some v => .ok v
    | none => .error (.keyError k)
  | _ => .error .typeError

/-- Python `del container[key]`: KeyError when absent, TypeError on a
non-dict. -/
def pyDelItem (container : Val) (k : String) : Except PyExc Val :=
  match container with
  | .vdict _ =>
    if container.hasKey k then .ok (container.delKey k) else .error (.keyError k)
  | _ => .error .typeError

/-- Python `needle in container`: key membership for dicts, element
membership for lists, substring test for strings, TypeError otherwise. -/
def pyIn (needle : Val) (container : Val) : Except PyExc Bool :=
  match container with
  | .vdict _ =>
    match needle with
    | .vstr k => .ok (container.hasKey k)
    | _ => .ok false
  | .vlist xs => .ok (xs.contains needle)
  | .vstr s =>
    match needle with
    | .vstr t => .ok ((t.isPrefixOf s) || (s.splitOn t).length > 1)
    | _ => .error .typeError
  | _ => .error .typeError

/-- Python iteration over a value, yielding its elements: list elements,
dict keys, string characters; TypeError on non-iterables. -/
def pyIter : Val → Except PyExc (List Val)
  | .vlist xs => .ok xs
  | .vdict fs => .ok (fs.map (fun f => .vstr f.1))
  | .vstr s => .ok (s.toList.map (fun c => .vstr (String.mk [c])))
  | _ => .error .typeError

/-- Python `a += b` on accumulated values: list concatenation or string
concatenation, TypeError otherwise. -/
def pyIAdd (a b : Val) : Except PyExc Val :=
  match a, b with
  | .vlist xs, .vlist ys => .ok (.vlist (xs ++ ys))
  | .vstr x, .vstr y => .ok (.vstr (x ++ y))
  | _, _ => .error .typeError

/-- Python `container[key] = value`: TypeError when the container is not a
dict (string keys are assumed, as everywhere in the source). -/
def pySetItem (container : Val) (k : String) (v : Val) : Except PyExc Val :=
  match container with
  | .vdict _ => .ok (container.setKey k v)
  | _ => .error .typeError

/-- `as_list(value)` from annotation.py: wrap a non-list in a list. -/
def as_list (v : Val) : List Val :=
  match v with
  | .vlist xs => xs
  | _ => [v]

/-! ## Structural validator (app/models/annotation.py) -/

/-- Model of the external `rfc3987.parse(string, rule="IRI")`: whether a
string is a syntactically valid IRI is abstracted by the parameter
`iriOk`; an invalid string raises ValueError, while a non-string argument
(in particular Python `None`) makes the underlying regex match raise an
unclassified TypeError. -/
def parse_iri (iriOk : String → Bool) : Option Val → Except PyExc Unit
  | some (.vstr s) => if iriOk s then .ok () else .error .valueError
  | some _ => .error .typeError
  | none => .error .typeError

/-- `validate_generic(annotation)`. -/
def validate_generic (doc : Val) : Except PyExc Unit := do
  if !doc.isDict then
    throw (annoErr ("annotation MUST be valid JSON"))
  if !doc.hasKey "@context" then
    throw (annoErr ("annotation MUST have a @context"))
  let ctx ← pyGetItem doc "@context"
  if !(ctx == Val.vstr ("http://www.w3.org/ns/anno.jsonld")) then
    throw (annoErr ("annotation @context MUST include \"http://www.w3.org/ns/anno.jsonld\""))
  if !doc.hasKey "type" then
    throw (annoErr ("annotation MUST have a type"))

/-- The body of the target loop in `validate_annotation`: determine the
target's identifier (left as Python `None` when a dict target has neither
an `id` nor a `source` key) and feed it to the IRI parser, converting only
ValueError into the structured validation error. -/
def validate_target (iriOk : String → Bool) (target : Val) : Except PyExc Unit := do
  let target_id : Option Val ←
    if target.isStr then pure (some target)
    else if target.isDict then
      if target.hasKey "id" then pure (target.get "id")
      else if target.hasKey "source" then pure (target.get "source")
      else pure none
    else throw (annoErr ("External annotation target MUST have an IRI identifier"))
  match parse_iri iriOk target_id with
  | .ok _ => pure ()
  | .error .valueError => throw (annoErr ("annotation target id MUST be an IRI"))
  | .error e => throw e

/-- The target loop of `validate_annotation`, left to right. -/
def validate_targets (iriOk : String → Bool) : List Val → Except PyExc Unit
  | [] => .ok ()
  | t :: ts => do
    validate_target iriOk t
    validate_targets iriOk ts

/-- `validate_annotation(annotation)`. -/
def validate_annotation (iriOk : String → Bool) (doc : Val) : Except PyExc Unit := do
  let tv ← pyGetItem doc "type"
  if !(as_list tv).contains (Val.vstr ("Annotation")) then
    throw (annoErr ("annotation type MUST include \"Annotation\""))
  if !doc.hasKey "target" then
    throw (annoErr ("annotation MUST have at least one target"))
  let tgt ← pyGetItem doc "target"
  validate_targets iriOk (as_list tgt)

/-- `validate_annotation_page(annotation_page)`. -/
def validate_annotation_page (doc : Val) : Except PyExc Unit := do
  let tv ← pyGetItem doc "type"
  if !(as_list tv).contains (Val.vstr ("AnnotationPage")) then
    throw (annoErr ("annotation \"type\" property MUST include \"AnnotationPage\""))
  if !doc.hasKey "items" then
    throw (annoErr ("annotation page MUST have an \"items\" property with as value a list with at least one annotation."))
  let items ← pyGetItem doc "items"
  if !items.isList || (as_list items).isEmpty then
    throw (annoErr ("annotation page \"items\" property MUST be a list with at least one annotation."))

/-- `validate_annotation_collection(annotation_collection)`. -/
def validate_annotation_collection (doc : Val) : Except PyExc Unit := do
  let tv ← pyGetItem doc "type"
  if !(as_list tv).contains (Val.vstr ("AnnotationCollection")) then
    throw (annoErr ("annotation \"type\" property MUST include \"AnnotationCollection\""))
  if !doc.hasKey "label" then
    throw (annoErr ("annotation collection MUST have an \"label\" property with as value a string."))
  let lbl ← pyGetItem doc "label"
  if !lbl.isStr then
    throw (annoErr ("annotation collection \"label\" property MUST be a string."))
  if doc.hasKey "total" then
    if !doc.hasKey "first" then
      throw (annoErr ("Non-empty collection MUST have \"first\" property referencing the first AnnotationPage"))
    if !doc.hasKey "last" then
      throw (annoErr ("Non-empty collection MUST have \"last\" property referencing the first AnnotationPage"))

/-- The accepted primary annotation types, in source order. -/
def accepted_types : List String := ["Annotation", "AnnotationCollection", "AnnotationPage"]

/-- `WebAnnotationValidator.has_valid_type(annotation)`. -/
def has_valid_type (doc : Val) : Except PyExc Val := do
  let tv ← pyGetItem doc "type"
  let types := (as_list tv).filter (fun t => accepted_types.any (fun a => t == Val.vstr a))
  if types.length > 1 then
    throw (annoErr ("annotation cannot have multiple annotation types"))
  match types with
  | [] => throw (annoErr ("annotation type MUST have one of \"Annotation\", \"AnnotationCollection\", \"AnnotationPage\""))
  | t :: _ => return t

/-- `WebAnnotationValidator.validate_type(annotation, annotation_type)`. -/
def validate_type (iriOk : String → Bool) (doc : Val) (expected : Option Val) :
    Except PyExc Unit := do
  let anno_type ← has_valid_type doc
  let at0 := expected.getD anno_type
  let tv ← pyGetItem doc "type"
  if !(as_list tv).contains at0 then
    throw (annoErr ("annotation is not of type " ++ pyStr at0))
  if at0 == Val.vstr ("Annotation") then
    validate_annotation iriOk doc
  if at0 == Val.vstr ("AnnotationPage") then
    validate_annotation_page doc
  if at0 == Val.vstr ("AnnotationCollection") then
    validate_annotation_collection doc

/-- `WebAnnotationValidator.validate(annotation, annotation_type=None)`. -/
def validate (iriOk : String → Bool) (doc : Val) (expected : Option Val) :
    Except PyExc Unit := do
  validate_generic doc
  validate_type iriOk doc expected

/-! ## Target/selector resolver (app/models/annotation.py, class Annotation) -/

/-- `Annotation.get_subresource_info(subresource)`: one descriptor per
nesting level of the `subresource` chain.  The chain lives inside a `Val`,
so the recursion is fuelled; exhaustion models Python's RecursionError. -/
def get_subresource_info (fuel : Nat) (sub : Val) : Except PyExc (List Val) :=
  match fuel with
  | 0 => .error .recursionError
  | fuel + 1 => do
    let sid ← pyGetItem sub "id"
    let sty ← pyGetItem sub "type"
    let info := [Val.vdict [("id", sid), ("type", sty)]]
    let b ← pyIn (.vstr "subresource") sub
    if b then
      let sub2 ← pyGetItem sub "subresource"
      let more ← get_subresource_info fuel sub2
      return info ++ more
    else
      return info

/-- The selector loop of `Annotation.get_selector_info`: a
SubresourceSelector appends to the accumulator, a NestedPIDSelector
overwrites it with the selector's `value`. -/
def get_selector_loop (fuel : Nat) : List Val → Val → Except PyExc Val
  | [], info => .ok info
  | sel :: rest, info => do
    let sty ← pyGetItem sel "type"
    let info1 ←
      if sty == Val.vstr ("SubresourceSelector") then do
        let v ← pyGetItem sel "value"
        let sub ← pyGetItem v "subresource"
        let more ← get_subresource_info fuel sub
        pyIAdd info (.vlist more)
      else pure info
    let info2 ←
      if sty == Val.vstr ("NestedPIDSelector") then pyGetItem sel "value"
      else pure info1
    get_selector_loop fuel rest info2

/-- `Annotation.get_selector_info(selectors, info)`. -/
def get_selector_info (fuel : Nat) (selectors : Val) (info : Val) : Except PyExc Val := do
  if !selectors.truthy then return info
  let sels := match selectors with
    | .vlist xs => xs
    | _ => [selectors]
  get_selector_loop fuel sels info

/-- `Annotation.get_target_info(target)`.  The result is a `Val` because a
NestedPIDSelector overwrites the accumulator with its raw `value`. -/
def get_target_info (fuel : Nat) (target : Val) : Except PyExc Val := do
  if target.isStr then
    return Val.vlist [.vdict [("id", target)]]
  let hasId ← pyIn (.vstr "id") target
  if hasId then
    let hasTy ← pyIn (.vstr "type") target
    if !hasTy then throw (annoErr ("target requires a type property"))
    let tid ← pyGetItem target "id"
    let tty ← pyGetItem target "type"
    return Val.vlist [.vdict [("id", tid), ("type", tty)]]
  let hasSrc ← pyIn (.vstr "source") target
  if hasSrc then
    let hasSel ← pyIn (.vstr "selector") target
    if hasSel then
      let hasTy ← pyIn (.vstr "type") target
      if !hasTy then throw (annoErr ("target requires a type property"))
      let src ← pyGetItem target "source"
      let tty ← pyGetItem target "type"
      let info := Val.vlist [.vdict [("id", src), ("type", tty)]]
      let sel ← pyGetItem target "selector"
      get_selector_info fuel sel info
    else
      throw (annoErr ("target requires an id or source property"))
  else
    throw (annoErr ("target requires an id or source property"))

/-- `Annotation.get_targets()`: the direct targets of the wrapped data. -/
def get_targets (data : Val) : List Val :=
  if !data.hasKey "target" then []
  else match data.get "target" with
    | some (.vlist xs) => xs
    | some v => [v]
    | none => []

/-- The flattening loop of `Annotation.get_targets_info`: concatenate the
(iterated) result of `get_target_info` over every direct target. -/
def get_targets_info_loop (fuel : Nat) : List Val → Except PyExc (List Val)
  | [] => .ok []
  | t :: ts => do
    let ti ← get_target_info fuel t
    let elems ← pyIter ti
    let rest ← get_targets_info_loop fuel ts
    return elems ++ rest

/-- `Annotation.get_targets_info()`. -/
def get_targets_info (fuel : Nat) (data : Val) : Except PyExc (List Val) :=
  get_targets_info_loop fuel (get_targets data)

/-- `Annotation.get_subresource_ids(subresource)`. -/
def get_subresource_ids (fuel : Nat) (sub : Val) : Except PyExc (List Val) :=
  match fuel with
  | 0 => .error .recursionError
  | fuel + 1 => do
    let sid ← pyGetItem sub "id"
    let b ← pyIn (.vstr "subresource") sub
    if b then
      let sub2 ← pyGetItem sub "subresource"
      let more ← get_subresource_ids fuel sub2
      return sid :: more
    else
      return [sid]

/-- The comprehension `[resource["id"] for resource in selector["value"]]`. -/
def mapGetIds : List Val → Except PyExc (List Val)
  | [] => .ok []
  | r :: rs => do
    let i ← pyGetItem r "id"
    let more ← mapGetIds rs
    return i :: more

/-- The selector loop of `Annotation.get_selector_ids`. -/
def get_selector_ids_loop (fuel : Nat) : List Val → List Val → Except PyExc (List Val)
  | [], ids => .ok ids
  | sel :: rest, ids => do
    let sty ← pyGetItem sel "type"
    let ids1 ←
      if sty == Val.vstr ("SubresourceSelector") then do
        let v ← pyGetItem sel "value"
        let sub ← pyGetItem v "subresource"
        let more ← get_subresource_ids fuel sub
        pure (ids ++ more)
      else pure ids
    let ids2 ←
      if sty == Val.vstr ("NestedPIDSelector") then do
        let v ← pyGetItem sel "value"
        let resources ← pyIter v
        let rids ← mapGetIds resources
        pure (ids1 ++ rids)
      else pure ids1
    get_selector_ids_loop fuel rest ids2

/-- `Annotation.get_selector_ids(selectors)`. -/
def get_selector_ids (fuel : Nat) (selectors : Val) : Except PyExc (List Val) := do
  if !selectors.truthy then return []
  let sels := match selectors with
    | .vlist xs => xs
    | _ => [selectors]
  get_selector_ids_loop fuel sels []

/-- `Annotation.get_target_id(target)`.  Returns `none` for the implicit
Python `None` when the target is a dict with a `source` but no `selector`
key (the function body falls off its end). -/
def get_target_id (fuel : Nat) (target : Val) : Except PyExc (Option (List Val)) := do
  if target.isStr then return some [target]
  let hasId ← pyIn (.vstr "id") target
  if hasId then
    let tid ← pyGetItem target "id"
    return some [tid]
  let hasSrc ← pyIn (.vstr "source") target
  if hasSrc then
    let hasSel ← pyIn (.vstr "selector") target
    if hasSel then
      let src ← pyGetItem target "source"
      let sel ← pyGetItem target "selector"
      let sids ← get_selector_ids fuel sel
      return some (src :: sids)
  return none

/-! ## Annotation entity (app/models/annotation.py, class Annotation) -/

/-- The entity wrapping a validated document.  `validator`, the constant
`type` field and the unused `in_collection` list are omitted; `id`,
`motivation`, `permissions` and `target_list` are the remaining instance
attributes (Python `None` is `vnull`). -/
structure AnnotationObj where
  data : Val
  id : Val
  motivation : Val
  permissions : Val
  target_list : Val
deriving DecidableEq

/-- `Annotation.set_permissions()`: returns the new `permissions`
attribute and the data dict with the `permissions` key removed. -/
def set_permissions (data : Val) : Val × Val :=
  if data.hasKey "permissions" then
    (((data.get "permissions").getD .vnull), data.delKey "permissions")
  else (.vnull, data)

/-- `Annotation.set_target_list()`: returns the new `target_list`
attribute and the data dict with the `target_list` key removed. -/
def set_target_list (data : Val) : Val × Val :=
  if data.hasKey "target_list" then
    (((data.get "target_list").getD .vnull), data.delKey "target_list")
  else (.vnull, data)

/-- `Annotation.__init__(annotation)`.  The caller's dict is mutated in
place by the source; mutation is modelled by state passing, so the final
state of the caller's dict is the entity's `data` field.  The fresh uuid
urn and the current timestamp are passed in as `genId` and `now`. -/
def annotation_init (iriOk : String → Bool) (genId now : String) (doc0 : Val) :
    Except PyExc AnnotationObj := do
  let hasId ← pyIn (.vstr "id") doc0
  let doc1 ← if hasId then pure doc0 else pySetItem doc0 "id" (.vstr genId)
  let hasCreated ← pyIn (.vstr "created") doc1
  let doc2 ← if hasCreated then pure doc1 else pySetItem doc1 "created" (.vstr now)
  validate iriOk doc2 none
  let idv ← pyGetItem doc2 "id"
  let motivation := (doc2.get "motivation").getD .vnull
  let (perms, doc3) := set_permissions doc2
  let (tl, doc4) := set_target_list doc3
  return { data := doc4, id := idv, motivation := motivation,
           permissions := perms, target_list := tl }

/-- `Annotation.to_clean_json(params)`: a copy of the data dict, with the
`permissions` attribute written back only when the params ask for it. -/
def to_clean_json (obj : AnnotationObj) (params : Val) : Except PyExc Val := do
  if params.truthy then
    let b ← pyIn (.vstr "include_permissions") params
    if b then
      let v ← pyGetItem params "include_permissions"
      if v.truthy then
        pySetItem obj.data "permissions" obj.permissions
      else pure obj.data
    else pure obj.data
  else pure obj.data

/-- `Annotation.update(updated_annotation)`: validate, require matching
ids, stamp `modified`, and replace the data dict wholesale. -/
def AnnotationObj.update (obj : AnnotationObj) (iriOk : String → Bool) (now : String)
    (updated : Val) : Except PyExc AnnotationObj := do
  validate iriOk updated none
  let uid ← pyGetItem updated "id"
  if obj.id == uid then
    let updated2 ← pySetItem updated "modified" (.vstr now)
    return { obj with data := updated2 }
  else
    throw (annoErr ("ID of updated annotation does not match ID of existing annotation"))

/-! ## The document store state (models/annotation_store.py) -/

/-- One document in the Elasticsearch index, addressed by id and doc type. -/
structure ESDoc where
  docId : Val
  dtype : String
  body : Val
deriving DecidableEq

/-- The store state: the index contents, the process-wide dirty flag
`needs_refresh`, and a counter of refresh calls issued to the external
engine (the observable synchronization effect). -/
structure ESStore where
  docs : List ESDoc
  needs_refresh : Bool
  refresh_count : Nat
deriving DecidableEq

/-- Does a stored document match the requested id and doc type
(`"_all"` matches any type)? -/
def es_doc_matches (id : Val) (dtype : String) (d : ESDoc) : Bool :=
  d.docId == id && (dtype == "_all" || d.dtype == dtype)

/-- `es.exists(index, doc_type, id)`. -/
def es_exists (st : ESStore) (id : Val) (dtype : String) : Bool :=
  st.docs.any (es_doc_matches id dtype)

/-- `es.get(index, doc_type, id)["_source"]`, as an Option. -/
def es_get (st : ESStore) (id : Val) (dtype : String) : Option Val :=
  (st.docs.find? (es_doc_matches id dtype)).map (·.body)

/-- Helper for `es_index`: upsert a document body under (id, doc type). -/
def es_index_docs (id : Val) (dtype : String) (body : Val) : List ESDoc → List ESDoc
  | [] => [⟨id, dtype, body⟩]
  | d :: ds =>
    if d.docId == id && d.dtype == dtype then ⟨id, dtype, body⟩ :: ds
    else d :: es_index_docs id dtype body ds

/-- `es.index(index, doc_type, id, body)`. -/
def es_index (st : ESStore) (id : Val) (dtype : String) (body : Val) : ESStore :=
  { st with docs := es_index_docs id dtype body st.docs }

/-- Helper for `es_delete`: drop the document under (id, doc type). -/
def es_delete_docs (id : Val) (dtype : String) : List ESDoc → List ESDoc
  | [] => []
  | d :: ds =>
    if d.docId == id && d.dtype == dtype then ds
    else d :: es_delete_docs id dtype ds

/-- `es.delete(index, doc_type, id)`. -/
def es_delete (st : ESStore) (id : Val) (dtype : String) : ESStore :=
  { st with docs := es_delete_docs id dtype st.docs }

/-- `es.indices.refresh(index)`: the raw external call.  It does not touch
the dirty flag (only `index_refresh` clears it). -/
def es_indices_refresh (st : ESStore) : ESStore :=
  { st with refresh_count := st.refresh_count + 1 }

/-- `AnnotationStore.index_needs_refresh()`. -/
def index_needs_refresh (st : ESStore) : Bool := st.needs_refresh

/-- `AnnotationStore.index_refresh()`: refresh, then clear the flag. -/
def index_refresh (st : ESStore) : ESStore :=
  let st1 := es_indices_refresh st
  { st1 with needs_refresh := false }

/-- `AnnotationStore.set_index_needs_refresh()`. -/
def set_index_needs_refresh (st : ESStore) : ESStore :=
  { st with needs_refresh := true }

/-- `AnnotationStore.check_index_is_fresh()`. -/
def check_index_is_fresh (st : ESStore) : ESStore :=
  if index_needs_refresh st then index_refresh st else st

/-- `AnnotationStore.is_deleted(annotation_id, annotation_type)`:
whether the stored record is a tombstone (status "deleted"). -/
def is_deleted (st : ESStore) (id : Val) (dtype : String) : Bool :=
  match es_get st id dtype with
  | some body => body.get "status" == some (Val.vstr ("deleted"))
  | none => false

/-- `AnnotationStore.should_exist(annotation_id, annotation_type)`. -/
def should_exist (st : ESStore) (id : Val) (dtype : String) : Except PyExc Unit :=
  if es_exists st id dtype && !(is_deleted st id dtype) then .ok ()
  else .error (.annotationError ("Annotation with id " ++ pyStr id ++ " does not exist") 404)

/-- `AnnotationStore.should_not_exist(annotation_id, annotation_type)`. -/
def should_not_exist (st : ESStore) (id : Val) (dtype : String) : Except PyExc Unit :=
  if es_exists st id dtype then
    .error (annoErr ("Annotation with id " ++ pyStr id ++ " already exists"))
  else .ok ()

/-- The Elasticsearch client needs a string doc type; the source passes
`annotation["type"]` directly. -/
def esDocType (v : Val) : Except PyExc String :=
  match v with
  | .vstr s => .ok s
  | _ => .error .typeError

/-- `AnnotationStore.add_to_index(annotation, annotation_type)`. -/
def add_to_index (st : ESStore) (doc : Val) (dtype : String) : Except PyExc ESStore := do
  let idv ← pyGetItem doc "id"
  should_not_exist st idv dtype
  return es_index st idv dtype doc

/-- `AnnotationStore.get_from_index(annotation_id, annotation_type)`. -/
def get_from_index (st : ESStore) (id : Val) (dtype : String) : Except PyExc Val := do
  should_exist st id dtype
  match es_get st id dtype with
  | some b => return b
  | none => throw (.keyError "_source")

/-- `AnnotationStore.update_in_index(annotation, annotation_type)`. -/
def update_in_index (st : ESStore) (doc : Val) (dtype : String) : Except PyExc ESStore := do
  let idv ← pyGetItem doc "id"
  should_exist st idv dtype
  return es_index st idv dtype doc

/-- `AnnotationStore.remove_from_index(annotation_id, annotation_type)`. -/
def remove_from_index (st : ESStore) (id : Val) (dtype : String) : Except PyExc ESStore := do
  should_exist st id dtype
  return es_delete st id dtype

/-- `make_target_list_query`: the queried field is the first key of the
target dict (`list(target.keys())[0]`). -/
def make_target_list_field (target : Val) : Except PyExc String :=
  match target with
  | .vdict ((k, _) :: _) => .ok k
  | .vdict [] => .error .indexError
  | _ => .error .typeError

/-- Does a stored body match the `target_list.<field>.keyword` query? -/
def target_list_query_matches (field : String) (qval : Val) (body : Val) : Bool :=
  match body.get "target_list" with
  | some (.vlist xs) => xs.any (fun x => x.get field == some qval)
  | _ => false

/-- `AnnotationStore.get_from_index_by_target(target)`: search Annotation
documents whose stored target_list matches the query. -/
def get_from_index_by_target (st : ESStore) (target : Val) : Except PyExc (List Val) := do
  let field ← make_target_list_field target
  let qval ← pyGetItem target field
  return ((st.docs.filter
    (fun d => d.dtype == "Annotation" && target_list_query_matches field qval d.body)).map (·.body))

/-- `AnnotationStore.get_from_index_by_target_list(target)` (identical
query to `get_from_index_by_target` in the source). -/
def get_from_index_by_target_list (st : ESStore) (target : Val) : Except PyExc (List Val) := do
  let field ← make_target_list_field target
  let qval ← pyGetItem target field
  return ((st.docs.filter
    (fun d => d.dtype == "Annotation" && target_list_query_matches field qval d.body)).map (·.body))

/-- Python `len(v)`. -/
def pyLen : Val → Except PyExc Int
  | .vlist xs => .ok xs.length
  | .vstr s => .ok s.length
  | .vdict fs => .ok fs.length
  | _ => .error .typeError

/-- Python values that are unhashable (cannot be put in a `set`). -/
def pyUnhashable : Val → Bool
  | .vlist _ => true
  | .vdict _ => true
  | _ => false

/-- Python `set(xs)`: TypeError on unhashable elements, otherwise the
underlying finite set. -/
def pySetOf (xs : List Val) : Except PyExc (Finset Val) :=
  if xs.any pyUnhashable then .error .typeError else .ok xs.toFinset

/-- The comprehension `[target["id"] for target in lst]` over an iterable
value, as used by `target_list_changed`. -/
def idsOfTargets (l : Val) : Except PyExc (List Val) := do
  let elems ← pyIter l
  mapGetIds elems

/-- `AnnotationStore.target_list_changed(list1, list2)`. -/
def target_list_changed (list1 list2 : Val) : Except PyExc Bool := do
  let raw1 ← idsOfTargets list1
  let ids1 ← pySetOf raw1
  let raw2 ← idsOfTargets list2
  let ids2 ← pySetOf raw2
  if ids1.card ≠ ids2.card then return true
  if (ids1 ∩ ids2).card ≠ ids1.card then return true
  if (ids1 ∪ ids2).card ≠ ids1.card then return true
  return false

/-- `AnnotationStore.is_annotation(target)`: the target descriptor's type
is or contains "Annotation". -/
def is_annotation (target : Val) : Except PyExc Bool := do
  let b ← pyIn (.vstr "type") target
  if b then
    let tv ← pyGetItem target "type"
    match tv with
    | .vstr s => return (s == "Annotation")
    | .vlist xs => return (xs.contains (Val.vstr ("Annotation")))
    | _ => return false
  else return false

/-! ## Store operations.  Python methods mutate `self` and the index and
may raise; they are modelled in the monad `StoreM`, whose run on a state
yields the raised-or-returned result together with the final state
(mutations survive an exception, as in Python). -/

/-- State-plus-exceptions monad for store operations. -/
abbrev StoreM (α : Type) : Type := ExceptT PyExc (StateM ESStore) α

/-- Run a store operation on a state. -/
def runS {α : Type} (x : StoreM α) (st : ESStore) : Except PyExc α × ESStore :=
  (ExceptT.run x).run st

/-- Lift a pure fallible computation into `StoreM`. -/
def liftE {α : Type} : Except PyExc α → StoreM α
  | .ok a => pure a
  | .error err => throw err

/-- `AnnotationStore.get_annotation_es(annotation_id)`. -/
def get_annotation_es (id : Val) : StoreM Val := do
  modify check_index_is_fresh
  let st ← get
  liftE (should_exist st id "Annotation")
  let body ← liftE (get_from_index st id "Annotation")
  liftE (pyDelItem body "target_list")

/-- `AnnotationStore.get_collection_es(collection_id)`. -/
def get_collection_es (cid : Val) : StoreM Val := do
  modify check_index_is_fresh
  let st ← get
  liftE (should_exist st cid "AnnotationCollection")
  liftE (get_from_index st cid "AnnotationCollection")

/-- The loop deleting `target_list` from every search hit in
`get_annotations_by_target_es`. -/
def del_target_list_each : List Val → Except PyExc (List Val)
  | [] => .ok []
  | d :: ds => do
    let d2 ← pyDelItem d "target_list"
    let rest ← del_target_list_each ds
    return d2 :: rest

/-- `AnnotationStore.get_annotations_by_target_es(annotation_target)`. -/
def get_annotations_by_target_es (target : Val) : StoreM (List Val) := do
  modify check_index_is_fresh
  let st ← get
  let docs ← liftE (get_from_index_by_target_list st target)
  liftE (del_target_list_each docs)

/-- The merge loop of `get_target_list`: append each deeper descriptor
whose… membership test `target not in target_ids` compares the descriptor
dict against the list of ids, exactly as the source writes it. -/
def merge_targets : List Val → List Val → List Val → Except PyExc (List Val)
  | tl, _, [] => .ok tl
  | tl, tids, t :: ts =>
    if !(tids.contains t) then do
      let tid ← pyGetItem t "id"
      merge_targets (tl ++ [t]) (tids ++ [tid]) ts
    else
      merge_targets tl tids ts

/-- The expansion loop of `get_target_list` over the direct descriptors,
accumulating `deeper_targets`.  The recursive closure computation at the
next depth (`get_target_list` one fuel lower) is passed in as `gtl`, so
that the recursion stays structural on the fuel. -/
def expand_loop (iriOk : String → Bool) (genId now : String)
    (gtl : AnnotationObj → StoreM (List Val)) (aid : Val) :
    List Val → StoreM (List Val)
  | [] => pure []
  | t :: ts => do
    let b ← liftE ( is_annotation t)
    let deeper ←
      if b then do
        let tid ← liftE (pyGetItem t "id")
        if tid == aid then
          throw (annoErr ("Annotation cannot target itself"))
        else do
          let st ← get
          if is_deleted st tid "_all" then pure []
          else do
            let body ← get_annotation_es tid
            let child ← liftE (annotation_init iriOk genId now body)
            gtl child
      else pure []
    let rest ← expand_loop iriOk genId now gtl aid ts
    return deeper ++ rest

/-- `AnnotationStore.get_target_list(annotation)`: the transitive closure
computation.  Direct descriptors come from the resolver; every
Annotation-typed descriptor is checked against the annotation's own id,
skipped if tombstoned, and otherwise fetched and recursively expanded;
finally the deeper descriptors are merged behind the direct ones. -/
def get_target_list (iriOk : String → Bool) (genId now : String) :
    Nat → AnnotationObj → StoreM (List Val)
  | 0, _ => throw .recursionError
  | fuel + 1, anno => do
    let target_list ← liftE (get_targets_info fuel anno.data)
    let deeper_targets ←
      expand_loop iriOk genId now (get_target_list iriOk genId now fuel) anno.id target_list
    let target_ids ← liftE (mapGetIds target_list)
    liftE (merge_targets target_list target_ids deeper_targets)

/-- `AnnotationStore.add_annotation_es(annotation)`.  After the
constructor, the caller's dict is the entity's `data` (mutated in place),
so the `"id" in annotation` check reads the defaulted dict. -/
def add_annotation_es (iriOk : String → Bool) (genId now : String) (fuel : Nat)
    (doc : Val) : StoreM Val := do
  let anno ← liftE (annotation_init iriOk genId now doc)
  if anno.data.hasKey "id" then do
    let idv ← liftE (pyGetItem anno.data "id")
    let tyv ← liftE (pyGetItem anno.data "type")
    let dty ← liftE (esDocType tyv)
    let st ← get
    liftE (should_not_exist st idv dty)
  let tl ← get_target_list iriOk genId now fuel anno
  let data1 ← liftE (pySetItem anno.data "target_list" (.vlist tl))
  let tyv2 ← liftE (pyGetItem data1 "type")
  let dty2 ← liftE (esDocType tyv2)
  let st ← get
  let st2 ← liftE (add_to_index st data1 dty2)
  set st2
  let data2 ← liftE (pyDelItem data1 "target_list")
  modify set_index_needs_refresh
  return data2

/-- The dependent loop of `update_chained_annotations`: re-derive each
dependent's closure and push it through `update_annotation_es`.  The
closure computation and the recursive update at the next depth are passed
in as `gtl` and `upd`, keeping the recursion structural on the fuel. -/
def chain_loop (iriOk : String → Bool) (genId now : String)
    (gtl : AnnotationObj → StoreM (List Val)) (upd : Val → StoreM Val) (aid : Val) :
    List Val → StoreM Unit
  | [] => pure ()
  | c :: cs => do
    let cid ← liftE (pyGetItem c "id")
    if cid == aid then
      throw (annoErr ("Annotation cannot target itself"))
    else do
      let child ← liftE (annotation_init iriOk genId now c)
      let ctl ← gtl child
      let c2 ← liftE (pySetItem child.data "target_list" (.vlist ctl))
      let _ ← upd c2
      chain_loop iriOk genId now gtl upd aid cs

mutual

/-- `AnnotationStore.update_annotation_es(updated_annotation_json)`. -/
def update_annotation_es (iriOk : String → Bool) (genId now : String) :
    Nat → Val → StoreM Val
  | 0, _ => throw .recursionError
  | fuel + 1, updated => do
    let uid ← liftE (pyGetItem updated "id")
    let st ← get
    let body0 ← liftE (get_from_index st uid "Annotation")
    let old_tl ← liftE (pyGetItem body0 "target_list")
    let anno ← liftE (annotation_init iriOk genId now body0)
    let anno2 ← liftE (anno.update iriOk now updated)
    let new_tl ← get_target_list iriOk genId now fuel anno2
    let data1 ← liftE (pySetItem anno2.data "target_list" (.vlist new_tl))
    let tyv ← liftE (pyGetItem data1 "type")
    let dty ← liftE (esDocType tyv)
    let st1 ← get
    let st2 ← liftE (update_in_index st1 data1 dty)
    set st2
    let changed ← liftE (target_list_changed (.vlist new_tl) old_tl)
    if changed then
      update_chained_annotations iriOk genId now fuel anno2.id
    let data2 ← liftE (pyDelItem data1 "target_list")
    modify set_index_needs_refresh
    return data2

/-- `AnnotationStore.update_chained_annotations(annotation_id)`. -/
def update_chained_annotations (iriOk : String → Bool) (genId now : String) :
    Nat → Val → StoreM Unit
  | 0, _ => throw .recursionError
  | fuel + 1, annotation_id => do
    modify es_indices_refresh
    let st ← get
    let chain ← liftE (get_from_index_by_target st (.vdict [("id", annotation_id)]))
    chain_loop iriOk genId now (get_target_list iriOk genId now fuel)
      (update_annotation_es iriOk genId now fuel) annotation_id chain

end

/-- `AnnotationStore.remove_annotation_es(annotation_id)`: tombstone the
record, then trigger chain propagation. -/
def remove_annotation_es (iriOk : String → Bool) (genId now : String) (fuel : Nat)
    (id : Val) : StoreM Val := do
  modify check_index_is_fresh
  let st ← get
  liftE (should_exist st id "Annotation")
  let st1 ← get
  let st2 ← liftE (remove_from_index st1 id "Annotation")
  set st2
  let deleted := Val.vdict [("id", id), ("type", .vstr ("Annotation")), ("status", .vstr ("deleted"))]
  let st3 ← get
  let st4 ← liftE (add_to_index st3 deleted "Annotation")
  set st4
  update_chained_annotations iriOk genId now fuel id
  return deleted

/-- `AnnotationStore.add_annotation_to_collection_es(annotation_id, collection_id)`. -/
def add_annotation_to_collection_es (aid cid : Val) : StoreM Val := do
  let st ← get
  liftE (should_exist st aid "Annotation")
  liftE (should_exist st cid "AnnotationCollection")
  let coll ← liftE (get_from_index st cid "AnnotationCollection")
  let items ← liftE (pyGetItem coll "items")
  let mem ← liftE (pyIn aid items)
  if mem then
    throw (annoErr ("Collection already contains this annotation"))
  let items2 ← liftE (pyIAdd items (.vlist [aid]))
  let coll2 ← liftE (pySetItem coll "items" items2)
  let items3 ← liftE (pyGetItem coll2 "items")
  let n ← liftE (pyLen items3)
  let coll3 ← liftE (pySetItem coll2 "total" (.vint n))
  let st2 ← get
  let st3 ← liftE (update_in_index st2 coll3 "AnnotationCollection")
  set st3
  modify set_index_needs_refresh
  return coll3

/-- `AnnotationStore.remove_annotation_from_collection_es(annotation_id, collection_id)`. -/
def remove_annotation_from_collection_es (aid cid : Val) : StoreM Val := do
  modify check_index_is_fresh
  let st ← get
  liftE (should_exist st aid "Annotation")
  liftE (should_exist st cid "AnnotationCollection")
  let coll ← liftE (get_from_index st cid "AnnotationCollection")
  let items ← liftE (pyGetItem coll "items")
  let items2 ←
    match items with
    | .vlist xs =>
      if xs.contains aid then pure (Val.vlist (xs.erase aid))
      else throw (annoErr ("Collection does not contain this annotation"))
    | _ => throw PyExc.typeError
  let coll2 ← liftE (pySetItem coll "items" items2)
  let items3 ← liftE (pyGetItem coll2 "items")
  let n ← liftE (pyLen items3)
  let coll3 ← liftE (pySetItem coll2 "total" (.vint n))
  let st2 ← get
  let st3 ← liftE (update_in_index st2 coll3 "AnnotationCollection")
  set st3
  return coll3

/-- `AnnotationStore.remove_collection_es(collection_id)`. -/
def remove_collection_es (cid : Val) : StoreM Val := do
  modify check_index_is_fresh
  let st ← get
  liftE (should_exist st cid "AnnotationCollection")
  let st1 ← get
  let st2 ← liftE (remove_from_index st1 cid "AnnotationCollection")
  set st2
  let deleted := Val.vdict [("id", cid), ("type", .vstr ("AnnotationCollection")), ("status", .vstr ("deleted"))]
  let st3 ← get
  let st4 ← liftE (add_to_index st3 deleted "AnnotationCollection")
  set st4
  return deleted

/-! ## Specification-side notions and analysis helpers -/

/-- The nesting depth of a well-formed `subresource` chain (spec: one
descriptor is emitted per nesting level): a `{id, type}` dict, optionally
carrying a nested `subresource`. -/
inductive SubresourceChain : Val → Nat → Prop where
  | leaf : ∀ (v sid sty : Val),
      v.get "id" = some sid → v.get "type" = some sty →
      v.hasKey "subresource" = false → SubresourceChain v 1
  | node : ∀ (v sub sid sty : Val) (n : Nat),
      v.get "id" = some sid → v.get "type" = some sty →
      v.get "subresource" = some sub → SubresourceChain sub n →
      SubresourceChain v (n + 1)

/-- The id set of a closure, as the spec speaks of it: the set of values
stored under the descriptors' `id` keys. -/
def target_id_set (ds : List Val) : Finset Val :=
  (ds.filterMap (fun d => d.get "id")).toFinset

/-- A well-formed stored closure for `target_list_changed`: every member
is a dict carrying a hashable `id`. -/
def wf_target_list (ds : List Val) : Bool :=
  ds.all (fun d => match d.get "id" with
    | some v => !pyUnhashable v
    | none => false)

/-- A dict has no repeated keys (Python dicts never do; the association
list model allows it, so theorems about key deletion assume it). -/
def keysUniqueFields : List (String × Val) → Bool
  | [] => true
  | (k, _) :: fs => (Val.getFields k fs).isNone && keysUniqueFields fs

/-- Key uniqueness of a value (trivially true off dicts). -/
def keysUnique : Val → Bool
  | .vdict fs => keysUniqueFields fs
  | _ => true

/-- Is a stored body a tombstone? (the `status == "deleted"` test of
`is_deleted`). -/
def tombstoned (body : Val) : Bool :=
  body.get "status" == some (Val.vstr ("deleted"))

/-- Two index documents agree except possibly in the body of a tombstone:
same id, same doc type, tombstoned together, and equal bodies when live. -/
def docAgree (d1 d2 : ESDoc) : Bool :=
  d1.docId == d2.docId && d1.dtype == d2.dtype &&
  (tombstoned d1.body == tombstoned d2.body) &&
  (tombstoned d1.body || d1.body == d2.body)

/-- Pointwise `docAgree` over the index contents. -/
def docsAgree : List ESDoc → List ESDoc → Bool
  | [], [] => true
  | d1 :: t1, d2 :: t2 => docAgree d1 d2 && docsAgree t1 t2
  | _, _ => false

/-- Two store states agree except possibly in tombstone bodies. -/
def storeAgree (s1 s2 : ESStore) : Bool :=
  (s1.needs_refresh == s2.needs_refresh) &&
  (s1.refresh_count == s2.refresh_count) &&
  docsAgree s1.docs s2.docs

/-- The identity/timestamp defaulting the constructor applies to the
caller's dict before validation: insert `id` when absent, then `created`
when absent. -/
def init_defaulted (genId now : String) (d0 : Val) : Val :=
  let d1 := if d0.hasKey "id" then d0 else d0.setKey "id" (.vstr genId)
  if d1.hasKey "created" then d1 else d1.setKey "created" (.vstr now)

/-- Closure computation for a fresh document: construct the entity, then
run `get_target_list` on the given store, keeping only the result. -/
def closure_of_new (iriOk : String → Bool) (genId now : String) (fuel : Nat)
    (st : ESStore) (doc : Val) : Except PyExc (List Val) :=
  match annotation_init iriOk genId now doc with
  | .ok ent => (runS (get_target_list iriOk genId now fuel ent) st).1
  | .error e => .error e

/-! ## Concrete fixtures for witnesses and counterexamples.  All ids in
them are syntactically valid IRIs, so the external IRI parser is
instantiated with the constant-true checker. -/

/-- IRI-validity model under which every string passes (all identifiers in
the fixtures are valid IRIs such as `urn:a`). -/
def iriAll : String → Bool := fun _ => true

/-- The canonical Web Annotation context IRI. -/
def ctxIRI : String := "http://www.w3.org/ns/anno.jsonld"

/-- A stored annotation `urn:a` targeting the plain resource `urn:r`. -/
def aBody : Val := .vdict [("@context", .vstr ctxIRI), ("type", .vstr ("Annotation")),
  ("id", .vstr ("urn:a")), ("created", .vstr ("t0")), ("target", .vstr ("urn:r")),
  ("target_list", .vlist [.vdict [("id", .vstr ("urn:r"))]])]

/-- A new annotation targeting the annotation `urn:a` and, directly, the
same plain resource `urn:r` that `urn:a` also targets. -/
def xDoc : Val := .vdict [("@context", .vstr ctxIRI), ("type", .vstr ("Annotation")),
  ("id", .vstr ("urn:x")), ("created", .vstr ("t0")),
  ("target", .vlist [.vdict [("id", .vstr ("urn:a")), ("type", .vstr ("Annotation"))],
                     .vstr ("urn:r")])]

/-- A store holding only `urn:a`. -/
def st0 : ESStore := ⟨[⟨.vstr ("urn:a"), "Annotation", aBody⟩], false, 0⟩

/-- An annotation whose direct target is the bare string of its own id
(no `type` on the target). -/
def selfDoc : Val := .vdict [("@context", .vstr ctxIRI), ("type", .vstr ("Annotation")),
  ("id", .vstr ("urn:s")), ("created", .vstr ("t0")), ("target", .vstr ("urn:s"))]

/-- An annotation whose direct target descriptor is Annotation-typed and
carries its own id. -/
def selfDoc2 : Val := .vdict [("@context", .vstr ctxIRI), ("type", .vstr ("Annotation")),
  ("id", .vstr ("urn:s")), ("created", .vstr ("t0")),
  ("target", .vdict [("id", .vstr ("urn:s")), ("type", .vstr ("Annotation"))])]

/-- A store operation that never returns successfully (its run on every
state yields a raised exception). -/
def NeverOkS {α : Type} (x : StoreM α) : Prop :=
  ∀ (st : ESStore) (r : α) (st' : ESStore), runS x st ≠ (Except.ok r, st')

/-- The entity wrapping `selfDoc2`. -/
def selfObj2 : AnnotationObj :=
  { data := selfDoc2, id := .vstr ("urn:s"), motivation := .vnull,
    permissions := .vnull, target_list := .vnull }

/-- A stored collection `urn:c`. -/
def collBody : Val := .vdict [("@context", .vstr ctxIRI), ("type", .vstr ("AnnotationCollection")),
  ("id", .vstr ("urn:c")), ("label", .vstr ("L"))]

/-- A store holding only the collection `urn:c`, with a clean dirty flag. -/
def stC : ESStore := ⟨[⟨.vstr ("urn:c"), "AnnotationCollection", collBody⟩], false, 0⟩

/-- An annotation document with a dict target that has neither an `id`
nor a `source` key. -/
def badTargetDoc : Val := .vdict [("@context", .vstr ctxIRI), ("type", .vstr ("Annotation")),
  ("target", .vdict [("x", .vint 1)])]

/-- A two-level subresource chain. -/
def subW : Val := .vdict [("id", .vstr ("urn:p1")), ("type", .vstr ("res")),
  ("subresource", .vdict [("id", .vstr ("urn:p2")), ("type", .vstr ("res"))])]

/-- An annotation targeting the tombstoned annotation `urn:b`. -/
def tDoc : Val := .vdict [("@context", .vstr ctxIRI), ("type", .vstr ("Annotation")),
  ("id", .vstr ("urn:t")), ("created", .vstr ("t0")),
  ("target", .vdict [("id", .vstr ("urn:b")), ("type", .vstr ("Annotation"))])]

/-- A store where `urn:b` is a bare tombstone. -/
def stT1 : ESStore := ⟨[⟨.vstr ("urn:b"), "Annotation",
  .vdict [("id", .vstr ("urn:b")), ("type", .vstr ("Annotation")), ("status", .vstr ("deleted"))]⟩], false, 0⟩

/-- A store where the tombstone of `urn:b` still carries leftover fields,
among them a target pointing elsewhere. -/
def stT2 : ESStore := ⟨[⟨.vstr ("urn:b"), "Annotation",
  .vdict [("id", .vstr ("urn:b")), ("type", .vstr ("Annotation")), ("status", .vstr ("deleted")),
          ("target", .vstr ("urn:elsewhere"))]⟩], false, 0⟩

/-- A valid annotation document carrying a `permissions` payload. -/
def permDoc : Val := .vdict [("@context", .vstr ctxIRI), ("type", .vstr ("Annotation")),
  ("id", .vstr ("urn:p")), ("created", .vstr ("t0")), ("target", .vstr ("urn:r")),
  ("permissions", .vdict [("can_see", .vlist [.vstr ("alice")])])]

/-- The same annotation without the permissions payload (its stored form). -/
def permDocClean : Val := .vdict [("@context", .vstr ctxIRI), ("type", .vstr ("Annotation")),
  ("id", .vstr ("urn:p")), ("created", .vstr ("t0")), ("target", .vstr ("urn:r"))]

/-- Field list of an annotation document lacking `id`/`created` but
carrying `permissions` and `target_list` payloads. -/
def c10Fields : List (String × Val) :=
  [("@context", .vstr ctxIRI), ("type", .vstr ("Annotation")),
   ("target", .vstr ("urn:r")), ("permissions", .vstr ("P")),
   ("target_list", .vlist [])]

/-- The entity the constructor builds from `c10Fields`. -/
def c10Obj : AnnotationObj :=
  { data := Val.vdict [("@context", .vstr ctxIRI), ("type", .vstr ("Annotation")),
      ("target", .vstr ("urn:r")), ("id", .vstr ("urn:new")), ("created", .vstr ("t0"))],
    id := .vstr ("urn:new"), motivation := .vnull,
    permissions := .vstr ("P"), target_list := .vlist [] }

/-- Field list of `permDocClean`. -/
def permCleanFields : List (String × Val) :=
  [("@context", .vstr ctxIRI), ("type", .vstr ("Annotation")),
   ("id", .vstr ("urn:p")), ("created", .vstr ("t0")), ("target", .vstr ("urn:r"))]

/-- The entity built from `permCleanFields`. -/
def permObj : AnnotationObj :=
  { data := Val.vdict permCleanFields, id := .vstr ("urn:p"), motivation := .vnull,
    permissions := .vnull, target_list := .vnull }

/-- `permObj` after an update whose payload is `permDoc`. -/
def permObj2 : AnnotationObj :=
  { permObj with data := permDoc.setKey "modified" (.vstr ("t1")) }

/-- A store operation that never changes the state. -/
def StateInv {α : Type} (x : StoreM α) : Prop :=
  ∀ st : ESStore, (runS x st).2 = st

/-- A store operation whose every success ends in a dirty-flagged state. -/
def EndsDirty {α : Type} (x : StoreM α) : Prop :=
  ∀ (st : ESStore) (r : α) (st' : ESStore),
    runS x st = (Except.ok r, st') → st'.needs_refresh = true

/-- A store operation that, started on a clean state, succeeds only into
clean states. -/
def KeepsClean {α : Type} (x : StoreM α) : Prop :=
  ∀ st : ESStore, st.needs_refresh = false →
    ∀ (r : α) (st' : ESStore), runS x st = (Except.ok r, st') → st'.needs_refresh = false

/-- The tombstone remove_collection_es writes for `urn:c`. -/
def remCollDeleted : Val :=
  .vdict [("id", .vstr ("urn:c")), ("type", .vstr ("AnnotationCollection")),
          ("status", .vstr ("deleted"))]

/-- The store after removing the collection from `stC`. -/
def remCollFinal : ESStore :=
  ⟨[⟨.vstr ("urn:c"), "AnnotationCollection", remCollDeleted⟩], false, 0⟩

/-- Relational agreement of two store operations: run on stores that
agree except in tombstone bodies, they give identical results and leave
the stores agreeing. -/
def AgreeRun {α : Type} (x y : StoreM α) : Prop :=
  ∀ s1 s2 : ESStore, storeAgree s1 s2 = true →
    (runS x s1).1 = (runS y s2).1 ∧ storeAgree (runS x s1).2 (runS y s2).2 = true

/-- The entity wrapping `tDoc`. -/
def tObj : AnnotationObj :=
  { data := tDoc, id := .vstr ("urn:t"), motivation := .vnull,
    permissions := .vnull, target_list := .vnull }

/-! # Theorems

First the generic lemmas about the embedding's plumbing, then the claims. -/

theorem runS_bind {α β : Type} (x : StoreM α) (f : α → StoreM β) (st : ESStore) :
    runS (x >>= f) st =
      match runS x st with
      | (Except.ok a, st') => runS (f a) st'
      | (Except.error e, st') => (Except.error e, st') := by
  unfold runS
  rw [ExceptT.run_bind, StateT.run_bind]
  rcases h : (ExceptT.run x).run st with ⟨r, st'⟩
  cases r with
  | ok a => rfl
  | error e => rfl

theorem runS_pure {α : Type} (a : α) (st : ESStore) :
    runS (pure a : StoreM α) st = (Except.ok a, st) := rfl

theorem runS_throw {α : Type} (e : PyExc) (st : ESStore) :
    runS (throw e : StoreM α) st = (Except.error e, st) := rfl

theorem runS_get (st : ESStore) : runS (get : StoreM ESStore) st = (Except.ok st, st) := rfl

theorem runS_set (s : ESStore) (st : ESStore) :
    runS (set s : StoreM PUnit) st = (Except.ok PUnit.unit, s) := rfl

theorem runS_modify (f : ESStore → ESStore) (st : ESStore) :
    runS (modify f : StoreM PUnit) st = (Except.ok PUnit.unit, f st) := rfl

theorem runS_liftE {α : Type} (e : Except PyExc α) (st : ESStore) :
    runS (liftE e) st =
      match e with
      | Except.ok a => (Except.ok a, st)
      | Except.error err => (Except.error err, st) := by
  cases e with
  | ok a => rfl
  | error err => rfl

theorem except_throw {α : Type} (e : PyExc) : (throw e : Except PyExc α) = Except.error e := rfl

theorem except_bind_ok {α β : Type} (a : α) (f : α → Except PyExc β) :
    ((Except.ok a : Except PyExc α) >>= f) = f a := rfl

theorem except_bind_err {α β : Type} (e : PyExc) (f : α → Except PyExc β) :
    ((Except.error e : Except PyExc α) >>= f) = Except.error e := rfl

theorem bind_ok_iff {α β : Type} (x : Except PyExc α) (f : α → Except PyExc β) (b : β) :
    (x >>= f) = Except.ok b ↔ ∃ a, x = Except.ok a ∧ f a = Except.ok b := by
  cases x with
  | ok a =>
    rw [except_bind_ok]
    constructor
    · intro h; exact ⟨a, rfl, h⟩
    · rintro ⟨a', ha, hf⟩; injection ha with ha; rw [← ha] at hf; exact hf
  | error e =>
    rw [except_bind_err]
    constructor
    · intro h; cases h
    · rintro ⟨a', ha, _⟩; cases ha

theorem hasKey_of_get {v : Val} {k : String} {x : Val} (h : v.get k = some x) :
    v.hasKey k = true := by
  simp [Val.hasKey, h]

theorem isDict_of_get {v : Val} {k : String} {x : Val} (h : v.get k = some x) :
    v.isDict = true := by
  cases v with
  | vdict fs => rfl
  | vstr s => cases h
  | vint n => cases h
  | vbool b => cases h
  | vnull => cases h
  | vlist xs => cases h

theorem pyGetItem_of_get {v : Val} {k : String} {x : Val} (h : v.get k = some x) :
    pyGetItem v k = Except.ok x := by
  cases v with
  | vdict fs => simp [pyGetItem, h]
  | vstr s => cases h
  | vint n => cases h
  | vbool b => cases h
  | vnull => cases h
  | vlist xs => cases h

/-! ## C4: selector resolution semantics -/

theorem get_subresource_info_chain :
    ∀ {n : Nat} {v : Val}, SubresourceChain v n → ∀ fuel, n ≤ fuel →
    ∃ l, get_subresource_info fuel v = Except.ok l ∧ l.length = n := by
  intro n v h
  induction h with
  | leaf v sid sty hid hty hsub =>
    intro fuel hle
    rcases fuel with _ | f
    · omega
    · refine ⟨[Val.vdict [("id", sid), ("type", sty)]], ?_, rfl⟩
      rcases hv : v with s | n' | b | _ | xs | fs <;> rw [hv] at hid <;> try cases hid
      rw [hv] at hty hsub
      simp [get_subresource_info, pyGetItem, hid, hty, pyIn, hsub, Bind.bind, Except.bind,
            Pure.pure, Except.pure]
  | node v sub sid sty n hid hty hsubget hchain ih =>
    intro fuel hle
    rcases fuel with _ | f
    · omega
    obtain ⟨l, hl, hlen⟩ := ih f (by omega)
    refine ⟨Val.vdict [("id", sid), ("type", sty)] :: l, ?_, by simp [hlen]⟩
    have hk : v.hasKey "subresource" = true := hasKey_of_get hsubget
    rcases hv : v with s | n' | b | _ | xs | fs <;> rw [hv] at hid <;> try cases hid
    rw [hv] at hty hsubget hk
    simp [get_subresource_info, pyGetItem, hid, hty, hsubget, pyIn, hk, hl, Bind.bind,
          Except.bind, Pure.pure, Except.pure]

/-- C4: in selector resolution, a NestedPIDSelector replaces the entire
accumulated descriptor list with the selector's `value`, whereas a
SubresourceSelector appends exactly one descriptor per nesting level of
its `value.subresource` chain to the accumulated list. -/
theorem selector_nested_pid_replaces_subresource_appends :
    (∀ (fuel : Nat) (ds info : Val),
       get_selector_info fuel
         (Val.vdict [("type", Val.vstr ("NestedPIDSelector")), ("value", ds)]) info
         = Except.ok ds)
  ∧ (∀ (fuel : Nat) (sub : Val) (info : List Val) (n : Nat),
       SubresourceChain sub n → n ≤ fuel →
       ∃ l, get_subresource_info fuel sub = Except.ok l ∧ l.length = n ∧
         get_selector_info fuel
           (Val.vdict [("type", Val.vstr ("SubresourceSelector")),
                       ("value", Val.vdict [("subresource", sub)])])
           (Val.vlist info)
         = Except.ok (Val.vlist (info ++ l))) := by
  constructor
  · intro fuel ds info
    rfl
  · intro fuel sub info n hchain hle
    obtain ⟨l, hl, hlen⟩ := get_subresource_info_chain hchain fuel hle
    refine ⟨l, hl, hlen, ?_⟩
    simp [get_selector_info, get_selector_loop, pyGetItem, pyIn, hl, pyIAdd,
          Bind.bind, Except.bind, Pure.pure, Except.pure, Val.truthy, Val.isList,
          Val.get, Val.getFields, Val.hasKey, Val.instBEq, Val.beq]

theorem chainW : SubresourceChain subW 2 :=
  SubresourceChain.node _ _ _ _ 1 rfl rfl rfl (SubresourceChain.leaf _ _ _ rfl rfl rfl)

/-- Witness for C4 at a concrete two-level subresource chain and a
concrete NestedPIDSelector. -/
theorem selector_semantics_witness :
    (get_selector_info 3
        (Val.vdict [("type", Val.vstr ("NestedPIDSelector")), ("value", Val.vlist [Val.vstr ("urn:n1")])])
        (Val.vlist [Val.vdict [("id", Val.vstr ("urn:base"))]])
      = Except.ok (Val.vlist [Val.vstr ("urn:n1")]))
  ∧ (∃ l, get_subresource_info 3 subW = Except.ok l ∧ l.length = 2 ∧
      get_selector_info 3
        (Val.vdict [("type", Val.vstr ("SubresourceSelector")),
                    ("value", Val.vdict [("subresource", subW)])])
        (Val.vlist [Val.vdict [("id", Val.vstr ("urn:base"))]])
      = Except.ok (Val.vlist ([Val.vdict [("id", Val.vstr ("urn:base"))]] ++ l))) :=
  ⟨selector_nested_pid_replaces_subresource_appends.1 3 _ _,
   selector_nested_pid_replaces_subresource_appends.2 3 subW _ 2 chainW (by omega)⟩

/-! ## C9: the two target-id resolvers disagree on `{source}` targets -/

/-- C9: on a dict target carrying `source` but neither `id` nor
`selector`, `get_target_id` falls off the end of the function and returns
Python None, while `get_target_info` raises the structured
AnnotationError "target requires an id or source property"; the two
resolver variants disagree on this input shape. -/
theorem resolver_variants_disagree_on_source_without_selector :
    ∀ (fuel : Nat) (t : Val), t.isDict = true → t.hasKey "source" = true →
    t.hasKey "id" = false → t.hasKey "selector" = false →
    get_target_id fuel t = Except.ok none ∧
    get_target_info fuel t
      = Except.error (PyExc.annotationError ("target requires an id or source property") 400) := by
  intro fuel t hdict hsrc hid hsel
  rcases t with s | n | b | _ | xs | fs <;> try cases hdict
  constructor
  · simp [get_target_id, Val.isStr, pyIn, hid, hsrc, hsel, Bind.bind, Except.bind,
          Pure.pure, Except.pure]
  · simp [get_target_info, Val.isStr, pyIn, hid, hsrc, hsel, annoErr, Bind.bind, Except.bind,
          Pure.pure, Except.pure, except_throw]

/-- Witness for C9 at the concrete target `{"source": "urn:src"}`. -/
theorem resolver_variants_witness :
    get_target_id 3 (Val.vdict [("source", Val.vstr ("urn:src"))]) = Except.ok none ∧
    get_target_info 3 (Val.vdict [("source", Val.vstr ("urn:src"))])
      = Except.error (PyExc.annotationError ("target requires an id or source property") 400) :=
  resolver_variants_disagree_on_source_without_selector 3 _ rfl rfl rfl rfl

/-! ## C6: `target_list_changed` decides id-set inequality -/

theorem mapGetIds_wf : ∀ {ds : List Val}, wf_target_list ds = true →
    mapGetIds ds = Except.ok (ds.filterMap (fun d => d.get "id")) := by
  intro ds
  induction ds with
  | nil => intro _; rfl
  | cons d ds ih =>
    intro h
    simp only [wf_target_list, List.all_cons, Bool.and_eq_true] at h
    obtain ⟨hd, hrest⟩ := h
    rcases hg : d.get "id" with _ | v
    · rw [hg] at hd; cases hd
    · rw [hg] at hd
      have := ih (by simpa [wf_target_list] using hrest)
      simp [mapGetIds, pyGetItem_of_get hg, this, Bind.bind, Except.bind, Pure.pure,
            Except.pure, List.filterMap_cons, hg]

theorem wf_ids_hashable : ∀ {ds : List Val}, wf_target_list ds = true →
    (ds.filterMap (fun d => d.get "id")).any pyUnhashable = false := by
  intro ds
  induction ds with
  | nil => intro _; rfl
  | cons d ds ih =>
    intro h
    simp only [wf_target_list, List.all_cons, Bool.and_eq_true] at h
    obtain ⟨hd, hrest⟩ := h
    rcases hg : d.get "id" with _ | v
    · rw [hg] at hd; cases hd
    · rw [hg] at hd
      simp only [List.filterMap_cons, hg, List.any_cons, Bool.or_eq_false_iff]
      exact ⟨by simpa using hd, ih (by simpa [wf_target_list] using hrest)⟩

theorem finset_card_checks (s1 s2 : Finset Val) :
    (if s1.card ≠ s2.card then (Except.ok true : Except PyExc Bool)
     else if (s1 ∩ s2).card ≠ s1.card then Except.ok true
     else if (s1 ∪ s2).card ≠ s1.card then Except.ok true
     else Except.ok false) = Except.ok (decide (¬ (s1 = s2))) := by
  by_cases h : s1 = s2
  · subst h
    simp
  · have hd : decide (¬ (s1 = s2)) = true := decide_eq_true h
    rw [hd]
    by_cases c1 : s1.card = s2.card
    · have t1 : ¬ (s1.card ≠ s2.card) := by simpa using c1
      rw [if_neg t1]
      by_cases c2 : (s1 ∩ s2).card = s1.card
      · exfalso
        have hsub : s1 ∩ s2 = s1 :=
          Finset.eq_of_subset_of_card_le Finset.inter_subset_left (le_of_eq c2.symm)
        have h12 : s1 ⊆ s2 := Finset.inter_eq_left.mp hsub
        exact h (Finset.eq_of_subset_of_card_le h12 (le_of_eq c1.symm))
      · rw [if_pos c2]
    · rw [if_pos c1]

/-- C6: `target_list_changed(new, old)` — the guard under which
`update_annotation_es` triggers `update_chained_annotations` — returns
true exactly when the id sets of the two closures are unequal
(on well-formed closures, whose members are dicts with hashable ids). -/
theorem target_list_changed_iff_id_sets_differ :
    ∀ (ds1 ds2 : List Val), wf_target_list ds1 = true → wf_target_list ds2 = true →
    target_list_changed (Val.vlist ds1) (Val.vlist ds2)
      = Except.ok (decide (¬ (target_id_set ds1 = target_id_set ds2))) := by
  intro ds1 ds2 h1 h2
  have step : target_list_changed (Val.vlist ds1) (Val.vlist ds2)
      = (if (target_id_set ds1).card ≠ (target_id_set ds2).card then (Except.ok true : Except PyExc Bool)
         else if ((target_id_set ds1) ∩ (target_id_set ds2)).card ≠ (target_id_set ds1).card then Except.ok true
         else if ((target_id_set ds1) ∪ (target_id_set ds2)).card ≠ (target_id_set ds1).card then Except.ok true
         else Except.ok false) := by
    simp only [target_list_changed, idsOfTargets, pyIter, Bind.bind, Except.bind,
               mapGetIds_wf h1, mapGetIds_wf h2, pySetOf, wf_ids_hashable h1,
               wf_ids_hashable h2, Bool.false_eq_true, if_false, target_id_set,
               Pure.pure, Except.pure]
  rw [step, finset_card_checks]

/-- Witness for C6: a one-element closure against a two-element one. -/
theorem target_list_changed_witness :
    target_list_changed (Val.vlist [Val.vdict [("id", Val.vstr ("urn:a"))]])
        (Val.vlist [Val.vdict [("id", Val.vstr ("urn:a"))], Val.vdict [("id", Val.vstr ("urn:b"))]])
      = Except.ok (decide (¬ (target_id_set [Val.vdict [("id", Val.vstr ("urn:a"))]]
          = target_id_set [Val.vdict [("id", Val.vstr ("urn:a"))], Val.vdict [("id", Val.vstr ("urn:b"))]]))) :=
  target_list_changed_iff_id_sets_differ _ _ (by decide) (by decide)

/-! ## Dict mutation lemmas (for the entity claims) -/
theorem getFields_set_self (k : String) (v : Val) :
    ∀ fs, Val.getFields k (Val.setFields k v fs) = some v := by
  intro fs
  induction fs with
  | nil => simp [Val.setFields, Val.getFields]
  | cons f fs ih =>
    by_cases h : f.1 = k
    · have hb : (f.1 == k) = true := beq_iff_eq.mpr h
      simp [Val.setFields, hb, Val.getFields]
    · have hb : (f.1 == k) = false := beq_eq_false_iff_ne.mpr h
      simp [Val.setFields, hb, Val.getFields, h, ih]

theorem getFields_set_ne {k k' : String} (hne : ¬ k' = k) (v : Val) :
    ∀ fs, Val.getFields k' (Val.setFields k v fs) = Val.getFields k' fs := by
  have h1 : (k == k') = false := beq_eq_false_iff_ne.mpr (Ne.symm hne)
  intro fs
  induction fs with
  | nil => simp [Val.setFields, Val.getFields, h1]
  | cons f fs ih =>
    by_cases h : f.1 = k
    · have hb : (f.1 == k) = true := beq_iff_eq.mpr h
      have h2 : (f.1 == k') = false := by rw [h]; exact h1
      simp [Val.setFields, hb, Val.getFields, h1, h2]
    · have hb : (f.1 == k) = false := beq_eq_false_iff_ne.mpr h
      by_cases h' : f.1 = k'
      · have h2 : (f.1 == k') = true := beq_iff_eq.mpr h'
        simp [Val.setFields, hb, Val.getFields, h2]
      · have h2 : (f.1 == k') = false := beq_eq_false_iff_ne.mpr h'
        simp [Val.setFields, hb, Val.getFields, h2, ih]

theorem getFields_del_ne {k k' : String} (hne : ¬ k' = k) :
    ∀ fs, Val.getFields k' (Val.delFields k fs) = Val.getFields k' fs := by
  intro fs
  induction fs with
  | nil => simp [Val.delFields, Val.getFields]
  | cons f fs ih =>
    by_cases h : f.1 = k
    · have hb : (f.1 == k) = true := beq_iff_eq.mpr h
      have h2 : (f.1 == k') = false := by
        rw [h]; exact beq_eq_false_iff_ne.mpr (Ne.symm hne)
      simp [Val.delFields, hb, Val.getFields, h2]
    · have hb : (f.1 == k) = false := beq_eq_false_iff_ne.mpr h
      by_cases h' : f.1 = k'
      · have h2 : (f.1 == k') = true := beq_iff_eq.mpr h'
        simp [Val.delFields, hb, Val.getFields, h2]
      · have h2 : (f.1 == k') = false := beq_eq_false_iff_ne.mpr h'
        simp [Val.delFields, hb, Val.getFields, h2, ih]

theorem getFields_del_self_unique (k : String) :
    ∀ fs, keysUniqueFields fs = true → Val.getFields k (Val.delFields k fs) = none := by
  intro fs
  induction fs with
  | nil => intro _; rfl
  | cons f fs ih =>
    intro hu
    rcases f with ⟨fk, fv⟩
    simp only [keysUniqueFields, Bool.and_eq_true, Option.isNone_iff_eq_none] at hu
    obtain ⟨hnone, hrest⟩ := hu
    by_cases h : fk = k
    · subst h
      have hb : ((fk, fv).1 == fk) = true := beq_iff_eq.mpr rfl
      simpa [Val.delFields, hb] using hnone
    · have hb : ((fk, fv).1 == k) = false := beq_eq_false_iff_ne.mpr h
      have h2 : (fk == k) = false := hb
      simp [Val.delFields, hb, Val.getFields, h2, ih hrest]

theorem keysUniqueFields_set (k : String) (v : Val) :
    ∀ fs, keysUniqueFields fs = true → keysUniqueFields (Val.setFields k v fs) = true := by
  intro fs
  induction fs with
  | nil => intro _; simp [Val.setFields, keysUniqueFields, Val.getFields]
  | cons f fs ih =>
    intro hu
    rcases f with ⟨fk, fv⟩
    simp only [keysUniqueFields, Bool.and_eq_true, Option.isNone_iff_eq_none] at hu
    obtain ⟨hnone, hrest⟩ := hu
    by_cases h : fk = k
    · subst h
      have hb : ((fk, fv).1 == fk) = true := beq_iff_eq.mpr rfl
      simp [Val.setFields, hb, keysUniqueFields, hnone, hrest]
    · have hb : ((fk, fv).1 == k) = false := beq_eq_false_iff_ne.mpr h
      simp only [Val.setFields, hb, Bool.false_eq_true, if_false, keysUniqueFields,
                 Bool.and_eq_true, Option.isNone_iff_eq_none]
      refine ⟨?_, ih hrest⟩
      rw [getFields_set_ne h v fs]
      exact hnone

theorem keysUniqueFields_del (k : String) :
    ∀ fs, keysUniqueFields fs = true → keysUniqueFields (Val.delFields k fs) = true := by
  intro fs
  induction fs with
  | nil => intro _; rfl
  | cons f fs ih =>
    intro hu
    rcases f with ⟨fk, fv⟩
    simp only [keysUniqueFields, Bool.and_eq_true, Option.isNone_iff_eq_none] at hu
    obtain ⟨hnone, hrest⟩ := hu
    by_cases h : fk = k
    · subst h
      have hb : ((fk, fv).1 == fk) = true := beq_iff_eq.mpr rfl
      simpa [Val.delFields, hb] using hrest
    · have hb : ((fk, fv).1 == k) = false := beq_eq_false_iff_ne.mpr h
      simp only [Val.delFields, hb, Bool.false_eq_true, if_false, keysUniqueFields,
                 Bool.and_eq_true, Option.isNone_iff_eq_none]
      refine ⟨?_, ih hrest⟩
      rw [getFields_del_ne h fs]
      exact hnone

/-! ## Entity constructor/update inversion lemmas (for C8 and C10) -/

theorem get_setKey_ne (d : Val) {k k' : String} (hne : ¬ k' = k) (v : Val) :
    (d.setKey k v).get k' = d.get k' := by
  cases d <;> try rfl
  exact getFields_set_ne hne v _

theorem get_setKey_self_dict {fs : List (String × Val)} (k : String) (v : Val) :
    ((Val.vdict fs).setKey k v).get k = some v :=
  getFields_set_self k v fs

theorem get_delKey_ne (d : Val) {k k' : String} (hne : ¬ k' = k) :
    (d.delKey k).get k' = d.get k' := by
  cases d <;> try rfl
  exact getFields_del_ne hne _

theorem get_delKey_self (d : Val) (k : String) (hu : keysUnique d = true) :
    (d.delKey k).get k = none := by
  cases d <;> try rfl
  exact getFields_del_self_unique k _ hu

theorem keysUnique_setKey (d : Val) (k : String) (v : Val) (hu : keysUnique d = true) :
    keysUnique (d.setKey k v) = true := by
  cases d <;> try rfl
  exact keysUniqueFields_set k v _ hu

theorem keysUnique_delKey (d : Val) (k : String) (hu : keysUnique d = true) :
    keysUnique (d.delKey k) = true := by
  cases d <;> try rfl
  exact keysUniqueFields_del k _ hu

theorem hasKey_setKey_ne (d : Val) {k k' : String} (hne : ¬ k' = k) (v : Val) :
    (d.setKey k v).hasKey k' = d.hasKey k' := by
  simp only [Val.hasKey, get_setKey_ne d hne v]

theorem hasKey_delKey_ne (d : Val) {k k' : String} (hne : ¬ k' = k) :
    (d.delKey k).hasKey k' = d.hasKey k' := by
  simp only [Val.hasKey, get_delKey_ne d hne]

theorem get_none_of_not_hasKey {d : Val} {k : String} (h : d.hasKey k = false) :
    d.get k = none := by
  rcases hg : d.get k with _ | v
  · rfl
  · rw [Val.hasKey, hg] at h
    cases h

theorem delFields_of_not_has (k : String) :
    ∀ fs, Val.getFields k fs = none → Val.delFields k fs = fs := by
  intro fs
  induction fs with
  | nil => intro _; rfl
  | cons f fs ih =>
    intro h
    by_cases hf : f.1 = k
    · exfalso
      have hb : (f.1 == k) = true := beq_iff_eq.mpr hf
      rw [Val.getFields, hb] at h
      cases h
    · have hb : (f.1 == k) = false := beq_eq_false_iff_ne.mpr hf
      rw [Val.getFields, hb] at h
      simp only [Val.delFields, hb, Bool.false_eq_true, if_false]
      rw [ih (by simpa using h)]

theorem delKey_of_not_hasKey {d : Val} {k : String} (h : d.hasKey k = false) :
    d.delKey k = d := by
  cases d <;> try rfl
  rw [Val.delKey]
  rw [delFields_of_not_has k _ (get_none_of_not_hasKey h)]

theorem set_permissions_data (d : Val) :
    (set_permissions d).2 = d.delKey "permissions" := by
  rw [set_permissions]
  rcases h : d.hasKey "permissions"
  · simp only [Bool.false_eq_true, if_false]
    rw [delKey_of_not_hasKey h]
  · simp only [if_true]

theorem set_target_list_data (d : Val) :
    (set_target_list d).2 = d.delKey "target_list" := by
  rw [set_target_list]
  rcases h : d.hasKey "target_list"
  · simp only [Bool.false_eq_true, if_false]
    rw [delKey_of_not_hasKey h]
  · simp only [if_true]

theorem set_permissions_fst (d : Val) :
    (set_permissions d).1 = (d.get "permissions").getD Val.vnull := by
  rw [set_permissions]
  rcases h : d.hasKey "permissions"
  · simp only [Bool.false_eq_true, if_false]
    rw [get_none_of_not_hasKey h]
    rfl
  · simp only [if_true]

theorem ite_setKey_get_ne (x : Val) (c : Bool) {k kk : String} (hk : ¬ k = kk) (v : Val) :
    (if c = true then x else x.setKey kk v).get k = x.get k := by
  rcases c
  · simpa using get_setKey_ne x hk v
  · simp

theorem keysUnique_ite_setKey (x : Val) (c : Bool) (kk : String) (v : Val)
    (hu : keysUnique x = true) :
    keysUnique (if c = true then x else x.setKey kk v) = true := by
  rcases c
  · simpa using keysUnique_setKey x kk v hu
  · simpa using hu

theorem init_defaulted_get_ne (g n : String) (d : Val) {k : String}
    (h1 : ¬ k = "id") (h2 : ¬ k = "created") :
    (init_defaulted g n d).get k = d.get k := by
  simp only [init_defaulted]
  rw [ite_setKey_get_ne _ _ h2, ite_setKey_get_ne _ _ h1]

theorem keysUnique_init_defaulted (g n : String) (d : Val) (hu : keysUnique d = true) :
    keysUnique (init_defaulted g n d) = true := by
  simp only [init_defaulted]
  exact keysUnique_ite_setKey _ _ _ _ (keysUnique_ite_setKey _ _ _ _ hu)

theorem get_of_pyGetItem {d x : Val} {k : String} (h : pyGetItem d k = Except.ok x) :
    d.get k = some x := by
  cases d with
  | vdict fs =>
    have h' : (match (Val.vdict fs).get k with
      | some v => (Except.ok v : Except PyExc Val)
      | none => Except.error (PyExc.keyError k)) = Except.ok x := h
    rcases hg : (Val.vdict fs).get k with _ | v
    · rw [hg] at h'; cases h'
    · rw [hg] at h'; cases h'; rfl
  | vstr s => exact absurd h (by simp [pyGetItem])
  | vint n => exact absurd h (by simp [pyGetItem])
  | vbool b => exact absurd h (by simp [pyGetItem])
  | vnull => exact absurd h (by simp [pyGetItem])
  | vlist xs => exact absurd h (by simp [pyGetItem])

theorem init_tail {iriOk : String → Bool} {d2 : Val} {obj : AnnotationObj}
    (h : (do
        validate iriOk d2 none
        let idv ← pyGetItem d2 "id"
        pure { data := (set_target_list (set_permissions d2).2).2, id := idv,
               motivation := (d2.get "motivation").getD Val.vnull,
               permissions := (set_permissions d2).1,
               target_list := (set_target_list (set_permissions d2).2).1 }
      : Except PyExc AnnotationObj) = Except.ok obj) :
    (∃ u, validate iriOk d2 none = Except.ok u) ∧ Val.get d2 "id" = some obj.id ∧
    obj.permissions = (set_permissions d2).1 ∧
    obj.data = (set_target_list (set_permissions d2).2).2 ∧
    obj.target_list = (set_target_list (set_permissions d2).2).1 := by
  rw [bind_ok_iff] at h
  obtain ⟨u, hval, h⟩ := h
  rw [bind_ok_iff] at h
  obtain ⟨idv, hgi, h⟩ := h
  cases h
  exact ⟨⟨u, hval⟩, get_of_pyGetItem hgi, rfl, rfl, rfl⟩

theorem annotation_init_ok_shape {iriOk : String → Bool} {g n : String}
    {fs : List (String × Val)} {obj : AnnotationObj}
    (h : annotation_init iriOk g n (Val.vdict fs) = Except.ok obj) :
    (∃ u, validate iriOk (init_defaulted g n (Val.vdict fs)) none = Except.ok u) ∧
    Val.get (init_defaulted g n (Val.vdict fs)) "id" = some obj.id ∧
    obj.permissions = (set_permissions (init_defaulted g n (Val.vdict fs))).1 ∧
    obj.data = (set_target_list (set_permissions (init_defaulted g n (Val.vdict fs))).2).2 ∧
    obj.target_list = (set_target_list (set_permissions (init_defaulted g n (Val.vdict fs))).2).1 := by
  simp only [annotation_init, pyIn, except_bind_ok, pure_bind] at h
  rcases hid : (Val.vdict fs).hasKey "id" <;> rw [hid] at h
  case false =>
    simp only [Bool.false_eq_true, if_false] at h
    rw [show pySetItem (Val.vdict fs) "id" (Val.vstr g)
        = Except.ok (Val.vdict (Val.setFields "id" (Val.vstr g) fs)) from rfl] at h
    simp only [except_bind_ok] at h
    rcases hcr : (Val.vdict (Val.setFields "id" (Val.vstr g) fs)).hasKey "created" <;> rw [hcr] at h
    case false =>
      simp only [Bool.false_eq_true, if_false] at h
      rw [show pySetItem (Val.vdict (Val.setFields "id" (Val.vstr g) fs)) "created" (Val.vstr n)
          = Except.ok (Val.vdict (Val.setFields "created" (Val.vstr n)
              (Val.setFields "id" (Val.vstr g) fs))) from rfl] at h
      simp only [except_bind_ok] at h
      have hres := init_tail h
      simpa only [init_defaulted, hid, hcr, Bool.false_eq_true, if_false, Val.setKey] using hres
    case true =>
      simp only [if_true, pure_bind] at h
      have hres := init_tail h
      simpa only [init_defaulted, hid, hcr, Bool.false_eq_true, if_false, if_true, Val.setKey] using hres
  case true =>
    simp only [if_true, pure_bind] at h
    rcases hcr : (Val.vdict fs).hasKey "created" <;> rw [hcr] at h
    case false =>
      simp only [Bool.false_eq_true, if_false] at h
      rw [show pySetItem (Val.vdict fs) "created" (Val.vstr n)
          = Except.ok (Val.vdict (Val.setFields "created" (Val.vstr n) fs)) from rfl] at h
      simp only [except_bind_ok] at h
      have hres := init_tail h
      simpa only [init_defaulted, hid, hcr, Bool.false_eq_true, if_false, if_true, Val.setKey] using hres
    case true =>
      simp only [if_true, pure_bind] at h
      have hres := init_tail h
      simpa only [init_defaulted, hid, hcr, if_true, Val.setKey] using hres

/-! ## C7: how target validation classifies failures -/

theorem isStr_false_of_isDict {t : Val} (h : t.isDict = true) : t.isStr = false := by
  rcases t with _ | _ | _ | _ | _ | _ <;> first | rfl | cases h

/-- C7 (amended): a target that is neither a string nor a dict fails with
the structured AnnotationError, and a string or id/source identifier that
fails the IRI check fails with the structured AnnotationError — but a dict
target with neither `id` nor `source` leaves the identifier as Python
None, which the IRI parser rejects with an unclassified TypeError, not an
AnnotationError.  The last clause reduces annotation validation to the
per-target loop. -/
theorem target_validation_error_classes (iriOk : String → Bool) :
    (∀ t : Val, t.isStr = false → t.isDict = false →
      validate_target iriOk t
        = Except.error (annoErr ("External annotation target MUST have an IRI identifier")))
  ∧ (∀ t : Val, t.isDict = true → t.hasKey "id" = false → t.hasKey "source" = false →
      validate_target iriOk t = Except.error PyExc.typeError)
  ∧ (∀ s : String, iriOk s = false →
      validate_target iriOk (Val.vstr s)
        = Except.error (annoErr ("annotation target id MUST be an IRI")))
  ∧ (∀ (t : Val) (s : String), t.get "id" = some (Val.vstr s) → iriOk s = false →
      validate_target iriOk t
        = Except.error (annoErr ("annotation target id MUST be an IRI")))
  ∧ (∀ (t : Val) (s : String), t.isDict = true → t.hasKey "id" = false →
      t.get "source" = some (Val.vstr s) → iriOk s = false →
      validate_target iriOk t
        = Except.error (annoErr ("annotation target id MUST be an IRI")))
  ∧ (∀ (doc tv tgt : Val), pyGetItem doc "type" = Except.ok tv →
      (as_list tv).contains (Val.vstr ("Annotation")) = true →
      doc.hasKey "target" = true → doc.get "target" = some tgt →
      validate_annotation iriOk doc = validate_targets iriOk (as_list tgt)) := by
  refine ⟨?_, ?_, ?_, ?_, ?_, ?_⟩
  · intro t hs hd
    simp [validate_target, hs, hd, Bind.bind, Except.bind, Pure.pure, Except.pure, except_throw]
  · intro t hd hid hsrc
    simp [validate_target, hd, hid, hsrc, parse_iri, Bind.bind, Except.bind, Pure.pure,
          Except.pure, except_throw, isStr_false_of_isDict hd]
  · intro s hbad
    simp [validate_target, Val.isStr, parse_iri, hbad, Bind.bind, Except.bind, Pure.pure,
          Except.pure, except_throw]
  · intro t s hget hbad
    have hd : t.isDict = true := isDict_of_get hget
    have hk : t.hasKey "id" = true := hasKey_of_get hget
    have hs : t.isStr = false := isStr_false_of_isDict hd
    simp [validate_target, hs, hd, hk, hget, parse_iri, hbad, Bind.bind, Except.bind,
          Pure.pure, Except.pure, except_throw]
  · intro t s hd hid hget hbad
    have hk : t.hasKey "source" = true := hasKey_of_get hget
    have hs : t.isStr = false := isStr_false_of_isDict hd
    simp [validate_target, hs, hd, hid, hk, hget, parse_iri, hbad, Bind.bind, Except.bind,
          Pure.pure, Except.pure, except_throw]
  · intro doc tv tgt hty hcont htk hget
    simp [ validate_annotation, hty, hcont, htk, pyGetItem_of_get hget, Bind.bind,
          Except.bind, Pure.pure, Except.pure]

/-- Counterexample to C7 as stated: the Annotation document whose only
target is the dict `{"x": 1}` — an object with neither `id` nor `source` —
fails validation with an unclassified TypeError, not with the structured
AnnotationError the claim promises. -/
theorem validation_unclassified_counterexample :
    validate iriAll badTargetDoc none = Except.error PyExc.typeError := rfl

/-- Witness for C7 (amended), one concrete input per clause. -/
theorem target_validation_witness :
    (validate_target iriAll (Val.vint 5)
      = Except.error (annoErr ("External annotation target MUST have an IRI identifier")))
  ∧ (validate_target iriAll (Val.vdict [("x", Val.vint 1)]) = Except.error PyExc.typeError)
  ∧ (validate_target (fun _ => false) (Val.vstr ("not-a-uri"))
      = Except.error (annoErr ("annotation target id MUST be an IRI")))
  ∧ (validate_target (fun _ => false) (Val.vdict [("id", Val.vstr ("nope"))])
      = Except.error (annoErr ("annotation target id MUST be an IRI")))
  ∧ (validate_target (fun _ => false)
        (Val.vdict [("source", Val.vstr ("nope")), ("selector", Val.vnull)])
      = Except.error (annoErr ("annotation target id MUST be an IRI")))
  ∧ ( validate_annotation iriAll
        (Val.vdict [("type", Val.vstr ("Annotation")), ("target", Val.vstr ("urn:t"))])
      = validate_targets iriAll (as_list (Val.vstr ("urn:t")))) :=
  ⟨(target_validation_error_classes iriAll).1 _ rfl rfl,
   (target_validation_error_classes iriAll).2.1 _ rfl rfl rfl,
   (target_validation_error_classes (fun _ => false)).2.2.1 _ rfl,
   (target_validation_error_classes (fun _ => false)).2.2.2.1 _ "nope" rfl rfl,
   (target_validation_error_classes (fun _ => false)).2.2.2.2.1 _ "nope" rfl rfl rfl rfl,
   (target_validation_error_classes iriAll).2.2.2.2.2 _ _ _ rfl rfl rfl rfl⟩


/-! ## C10: the constructor mutates the caller's dict in place -/

theorem ite_setKey_hasKey_ne (x : Val) (c : Bool) {k kk : String} (hk : ¬ k = kk) (v : Val) :
    (if c = true then x else x.setKey kk v).hasKey k = x.hasKey k := by
  simp only [Val.hasKey, ite_setKey_get_ne x c hk v]

/-- C10: constructing an entity mutates the caller's dict in place (the
mutation is modelled by state passing, and the entity's `data` field is
the caller's dict after the constructor): `id` and `created` are assigned
into it when absent, the `permissions` and `target_list` keys are removed
from it (`permissions` moving to the entity attribute), and every other
key is untouched. -/
theorem constructor_mutates_caller_dict :
    ∀ (iriOk : String → Bool) (g n : String) (fs : List (String × Val)) (obj : AnnotationObj),
    keysUniqueFields fs = true →
    annotation_init iriOk g n (Val.vdict fs) = Except.ok obj →
    (obj.data = ((init_defaulted g n (Val.vdict fs)).delKey "permissions").delKey "target_list")
    ∧ ((Val.vdict fs).hasKey "id" = true → Val.get obj.data "id" = (Val.vdict fs).get "id")
    ∧ ((Val.vdict fs).hasKey "id" = false → Val.get obj.data "id" = some (Val.vstr g))
    ∧ ((Val.vdict fs).hasKey "created" = true →
        Val.get obj.data "created" = (Val.vdict fs).get "created")
    ∧ ((Val.vdict fs).hasKey "created" = false →
        Val.get obj.data "created" = some (Val.vstr n))
    ∧ obj.data.hasKey "permissions" = false
    ∧ obj.data.hasKey "target_list" = false
    ∧ obj.permissions = ((Val.vdict fs).get "permissions").getD Val.vnull
    ∧ (∀ k : String, ¬ k = "id" → ¬ k = "created" → ¬ k = "permissions" →
        ¬ k = "target_list" → Val.get obj.data k = (Val.vdict fs).get k) := by
  intro iriOk g n fs obj hu h
  obtain ⟨hval, hid_get, hperm, hdata, htl⟩ := annotation_init_ok_shape h
  have hUfs : keysUnique (Val.vdict fs) = true := hu
  have hUD : keysUnique (init_defaulted g n (Val.vdict fs)) = true :=
    keysUnique_init_defaulted g n _ hUfs
  have hdd : obj.data
      = ((init_defaulted g n (Val.vdict fs)).delKey "permissions").delKey "target_list" := by
    rw [hdata, set_target_list_data, set_permissions_data]
  have hDget : ∀ (k : String), ¬ k = "permissions" → ¬ k = "target_list" →
      Val.get obj.data k = (init_defaulted g n (Val.vdict fs)).get k := by
    intro k hk1 hk2
    rw [hdd, get_delKey_ne _ hk2, get_delKey_ne _ hk1]
  have hd1dict : ∃ gs, (if (Val.vdict fs).hasKey "id" = true then Val.vdict fs
      else (Val.vdict fs).setKey "id" (Val.vstr g)) = Val.vdict gs := by
    rcases (Val.vdict fs).hasKey "id"
    · exact ⟨Val.setFields "id" (Val.vstr g) fs, by simp [Val.setKey]⟩
    · exact ⟨fs, by simp⟩
  refine ⟨hdd, ?_, ?_, ?_, ?_, ?_, ?_, ?_, ?_⟩
  · intro hidp
    rw [hDget "id" (by decide) (by decide)]
    simp only [init_defaulted]
    rw [ite_setKey_get_ne _ _ (by decide)]
    simp [hidp]
  · intro hida
    rw [hDget "id" (by decide) (by decide)]
    simp only [init_defaulted]
    rw [ite_setKey_get_ne _ _ (by decide)]
    simp only [hida, Bool.false_eq_true, if_false]
    exact get_setKey_self_dict "id" (Val.vstr g)
  · intro hcrp
    rw [hDget "created" (by decide) (by decide)]
    simp only [init_defaulted]
    have hk1 : (if (Val.vdict fs).hasKey "id" = true then Val.vdict fs
        else (Val.vdict fs).setKey "id" (Val.vstr g)).hasKey "created"
        = (Val.vdict fs).hasKey "created" :=
      ite_setKey_hasKey_ne _ _ (by decide) _
    rw [hk1, hcrp]
    simp only [if_true]
    exact ite_setKey_get_ne _ _ (by decide) _
  · intro hcra
    rw [hDget "created" (by decide) (by decide)]
    simp only [init_defaulted]
    have hk1 : (if (Val.vdict fs).hasKey "id" = true then Val.vdict fs
        else (Val.vdict fs).setKey "id" (Val.vstr g)).hasKey "created"
        = (Val.vdict fs).hasKey "created" :=
      ite_setKey_hasKey_ne _ _ (by decide) _
    rw [hk1, hcra]
    simp only [Bool.false_eq_true, if_false]
    obtain ⟨gs, hgs⟩ := hd1dict
    rw [hgs]
    exact get_setKey_self_dict "created" (Val.vstr n)
  · rw [Val.hasKey, hdd, get_delKey_ne _ (by decide : ¬ "permissions" = "target_list"),
        get_delKey_self _ _ hUD]
    rfl
  · rw [Val.hasKey, hdd,
        get_delKey_self _ _ (keysUnique_delKey _ _ hUD)]
    rfl
  · rw [hperm, set_permissions_fst, init_defaulted_get_ne g n _ (by decide) (by decide)]
  · intro k h1 h2 h3 h4
    rw [hDget k h3 h4]
    exact init_defaulted_get_ne g n _ h1 h2

/-- Witness for C10 at `c10Fields` (no `id`/`created`, with `permissions`
and `target_list` payloads). -/
theorem constructor_mutates_witness :
    annotation_init iriAll "urn:new" "t0" (Val.vdict c10Fields) = Except.ok c10Obj ∧
    c10Obj.data
      = ((init_defaulted "urn:new" "t0" (Val.vdict c10Fields)).delKey "permissions").delKey "target_list" ∧
    Val.get c10Obj.data "id" = some (Val.vstr ("urn:new")) ∧
    Val.get c10Obj.data "created" = some (Val.vstr ("t0")) ∧
    c10Obj.data.hasKey "permissions" = false ∧
    c10Obj.data.hasKey "target_list" = false ∧
    c10Obj.permissions = ((Val.vdict c10Fields).get "permissions").getD Val.vnull := by
  have h : annotation_init iriAll "urn:new" "t0" (Val.vdict c10Fields) = Except.ok c10Obj := rfl
  have main := constructor_mutates_caller_dict iriAll "urn:new" "t0" c10Fields c10Obj (by decide) h
  exact ⟨h, main.1, main.2.2.1 rfl, main.2.2.2.2.1 rfl, main.2.2.2.2.2.1,
         main.2.2.2.2.2.2.1, main.2.2.2.2.2.2.2.1⟩

/-! ## C8: update does not re-strip `permissions`, and to_clean_json leaks it -/

theorem pySetItem_ok {d v x : Val} {k : String} (h : pySetItem d k v = Except.ok x) :
    x = d.setKey k v := by
  cases d with
  | vdict fs => cases h; rfl
  | vstr s => exact absurd h (by simp [pySetItem])
  | vint n => exact absurd h (by simp [pySetItem])
  | vbool b => exact absurd h (by simp [pySetItem])
  | vnull => exact absurd h (by simp [pySetItem])
  | vlist xs => exact absurd h (by simp [pySetItem])

theorem init_data_no_permissions {iriOk : String → Bool} {g n : String}
    {fs : List (String × Val)} {obj : AnnotationObj}
    (hu : keysUniqueFields fs = true)
    (h : annotation_init iriOk g n (Val.vdict fs) = Except.ok obj) :
    obj.data.hasKey "permissions" = false := by
  obtain ⟨_, _, _, hdata, _⟩ := annotation_init_ok_shape h
  have hUD : keysUnique (init_defaulted g n (Val.vdict fs)) = true :=
    keysUnique_init_defaulted g n _ hu
  rw [Val.hasKey, hdata, set_target_list_data, set_permissions_data,
      get_delKey_ne _ (by decide : ¬ "permissions" = "target_list"),
      get_delKey_self _ _ hUD]
  rfl

/-- C8: the constructor establishes "no `permissions` key in `data`", but
`update()` replaces `data` wholesale with the payload (only stamping
`modified`), so a payload carrying `permissions` leaves that key in
`data`, and `to_clean_json` then returns it even when
`include_permissions` was not requested. -/
theorem update_restores_permissions_key :
    ∀ (iriOk : String → Bool) (g n now : String) (fs : List (String × Val))
      (obj obj' : AnnotationObj) (payload params : Val),
    keysUniqueFields fs = true →
    annotation_init iriOk g n (Val.vdict fs) = Except.ok obj →
    AnnotationObj.update obj iriOk now payload = Except.ok obj' →
    payload.hasKey "permissions" = true →
    params.truthy = false →
      obj.data.hasKey "permissions" = false
    ∧ obj'.data.hasKey "permissions" = true
    ∧ Val.get obj'.data "permissions" = payload.get "permissions"
    ∧ to_clean_json obj' params = Except.ok obj'.data := by
  intro iriOk g n now fs obj obj' payload params hu hinit hup hpk hpar
  have hdata' : obj'.data = payload.setKey "modified" (Val.vstr now) := by
    simp only [AnnotationObj.update] at hup
    rw [bind_ok_iff] at hup
    obtain ⟨u, hval, hup⟩ := hup
    rw [bind_ok_iff] at hup
    obtain ⟨uid, hgi, hup⟩ := hup
    rcases heq : (obj.id == uid) <;> rw [heq] at hup
    · exact absurd hup (by simp [except_throw])
    · simp only [if_true] at hup
      rw [bind_ok_iff] at hup
      obtain ⟨u2, hset, hup⟩ := hup
      cases hup
      exact pySetItem_ok hset
  refine ⟨init_data_no_permissions hu hinit, ?_, ?_, ?_⟩
  · rw [hdata', hasKey_setKey_ne _ (by decide), hpk]
  · rw [hdata', get_setKey_ne _ (by decide)]
  · rw [to_clean_json, hpar]
    simp only [Bool.false_eq_true, if_false]
    rfl

/-- Witness for C8: create from `permCleanFields`, update with `permDoc`
(which carries `permissions`), read back with no params. -/
theorem update_restores_permissions_witness :
    annotation_init iriAll "g" "t0" (Val.vdict permCleanFields) = Except.ok permObj ∧
    AnnotationObj.update permObj iriAll "t1" permDoc = Except.ok permObj2 ∧
    permObj.data.hasKey "permissions" = false ∧
    permObj2.data.hasKey "permissions" = true ∧
    Val.get permObj2.data "permissions" = permDoc.get "permissions" ∧
    to_clean_json permObj2 Val.vnull = Except.ok permObj2.data := by
  have h1 : annotation_init iriAll "g" "t0" (Val.vdict permCleanFields) = Except.ok permObj := rfl
  have h2 : AnnotationObj.update permObj iriAll "t1" permDoc = Except.ok permObj2 := rfl
  have main := update_restores_permissions_key iriAll "g" "t0" "t1" permCleanFields permObj
    permObj2 permDoc Val.vnull (by decide) h1 h2 (by decide) rfl
  exact ⟨h1, h2, main.1, main.2.1, main.2.2.1, main.2.2.2⟩

end SWAS

namespace SWAS

theorem neverOk_bind_all {α β : Type} {x : StoreM α} {f : α → StoreM β}
    (h : ∀ a, NeverOkS (f a)) : NeverOkS (x >>= f) := by
  intro st r st' hc
  rw [runS_bind] at hc
  rcases hx : runS x st with ⟨rx, st1⟩
  rw [hx] at hc
  cases rx with
  | ok a => exact h a st1 r st' hc
  | error e => cases hc

theorem neverOk_bind_left {α β : Type} {x : StoreM α} (h : NeverOkS x) (f : α → StoreM β) :
    NeverOkS (x >>= f) := by
  intro st r st' hc
  rw [runS_bind] at hc
  rcases hx : runS x st with ⟨rx, st1⟩
  rw [hx] at hc
  cases rx with
  | ok a => exact h st a st1 hx
  | error e => cases hc

theorem neverOk_throw {α : Type} (e : PyExc) : NeverOkS (throw e : StoreM α) := by
  intro st r st' hc
  rw [runS_throw] at hc
  cases hc

theorem neverOk_ite {α : Type} (c : Prop) [Decidable c] {A B : StoreM α}
    (hA : NeverOkS A) (hB : NeverOkS B) : NeverOkS (if c then A else B) := by
  by_cases h : c
  · rw [if_pos h]; exact hA
  · rw [if_neg h]; exact hB

theorem fst_error_bind {α β : Type} {x : StoreM α} {st : ESStore} {e : PyExc} {st1 : ESStore}
    (h : runS x st = (Except.error e, st1)) (f : α → StoreM β) :
    runS (x >>= f) st = (Except.error e, st1) := by
  rw [runS_bind, h]

theorem expand_loop_self_not_ok :
    ∀ (ts : List Val) (iriOk : String → Bool) (g n : String)
      (gtl : AnnotationObj → StoreM (List Val)) (aid d : Val),
    d ∈ ts → is_annotation d = Except.ok true → pyGetItem d "id" = Except.ok aid →
    NeverOkS (expand_loop iriOk g n gtl aid ts) := by
  intro ts
  induction ts with
  | nil => intro _ _ _ _ _ _ hmem; cases hmem
  | cons t ts ih =>
    intro iriOk g n gtl aid d hmem hann hid
    simp only [expand_loop]
    rcases List.mem_cons.mp hmem with rfl | htail
    · intro st r st' hc
      rw [runS_bind, runS_liftE, hann] at hc
      dsimp only [] at hc
      rw [if_pos rfl] at hc
      rw [runS_bind, runS_liftE, hid] at hc
      dsimp only [] at hc
      have hbeq : (aid == aid) = true := (Val.beq_iff aid aid).mpr rfl
      rw [if_pos hbeq] at hc
      rw [runS_bind, runS_throw] at hc
      dsimp only [] at hc
      cases hc
    · have hjp : ∀ y : List Val,
          NeverOkS (expand_loop iriOk g n gtl aid ts >>= fun rest => pure (y ++ rest)) :=
        fun y => neverOk_bind_left (ih iriOk g n gtl aid d htail hann hid) _
      exact neverOk_bind_all (fun b => neverOk_ite _
        (neverOk_bind_all (fun tid => neverOk_ite _
          (neverOk_bind_left (neverOk_throw _) _)
          (neverOk_bind_all (fun st => neverOk_ite _
            (neverOk_bind_all (fun y => hjp y))
            (neverOk_bind_all (fun body => neverOk_bind_all (fun child =>
              neverOk_bind_all (fun y => hjp y))))))))
        (neverOk_bind_all (fun y => hjp y)))

theorem expand_loop_first_self :
    ∀ (ds1 : List Val) (iriOk : String → Bool) (g n : String)
      (gtl : AnnotationObj → StoreM (List Val)) (aid d : Val)
      (ds2 : List Val) (st : ESStore),
    (∀ d' ∈ ds1, is_annotation d' = Except.ok false) →
    is_annotation d = Except.ok true → pyGetItem d "id" = Except.ok aid →
    runS (expand_loop iriOk g n gtl aid (ds1 ++ d :: ds2)) st
      = (Except.error (annoErr ("Annotation cannot target itself")), st) := by
  intro ds1
  induction ds1 with
  | nil =>
    intro iriOk g n gtl aid d ds2 st _ hann hid
    simp only [List.nil_append, expand_loop]
    rw [runS_bind, runS_liftE, hann]
    dsimp only []
    rw [if_pos rfl]
    rw [runS_bind, runS_liftE, hid]
    dsimp only []
    have hbeq : (aid == aid) = true := (Val.beq_iff aid aid).mpr rfl
    rw [if_pos hbeq]
    rw [runS_bind, runS_throw]
  | cons t ds1 ih =>
    intro iriOk g n gtl aid d ds2 st hskip hann hid
    simp only [List.cons_append, expand_loop]
    rw [runS_bind, runS_liftE, hskip t (List.mem_cons_self t ds1)]
    dsimp only []
    rw [if_neg (by simp)]
    rw [runS_bind, runS_pure]
    dsimp only []
    rw [runS_bind]
    have hih := ih iriOk g n gtl aid d ds2 st
        (fun d' hd' => hskip d' (List.mem_cons_of_mem t hd')) hann hid
    rw [show (ds1 ++ d :: ds2 : List Val) = ds1.append (d :: ds2) from rfl] at hih
    rw [hih]

theorem get_target_list_self_not_ok :
    ∀ (iriOk : String → Bool) (g n : String) (fuel : Nat) (anno : AnnotationObj)
      (ti : List Val) (d : Val),
    get_targets_info fuel anno.data = Except.ok ti → d ∈ ti →
    is_annotation d = Except.ok true → pyGetItem d "id" = Except.ok anno.id →
    NeverOkS (get_target_list iriOk g n (fuel + 1) anno) := by
  intro iriOk g n fuel anno ti d hti hmem hann hid
  simp only [get_target_list]
  intro st r st' hc
  rw [runS_bind, runS_liftE, hti] at hc
  dsimp only [] at hc
  rw [runS_bind] at hc
  rcases hx : runS (expand_loop iriOk g n (get_target_list iriOk g n fuel) anno.id ti) st
    with ⟨rx, st1⟩
  rw [hx] at hc
  cases rx with
  | ok a =>
    exact expand_loop_self_not_ok ti iriOk g n (get_target_list iriOk g n fuel)
      anno.id d hmem hann hid st a st1 hx
  | error e => cases hc

theorem get_target_list_self_error :
    ∀ (iriOk : String → Bool) (g n : String) (fuel : Nat) (anno : AnnotationObj)
      (ds1 ds2 : List Val) (d : Val) (st : ESStore),
    get_targets_info fuel anno.data = Except.ok (ds1 ++ d :: ds2) →
    (∀ d' ∈ ds1, is_annotation d' = Except.ok false) →
    is_annotation d = Except.ok true → pyGetItem d "id" = Except.ok anno.id →
    runS (get_target_list iriOk g n (fuel + 1) anno) st
      = (Except.error (annoErr ("Annotation cannot target itself")), st) := by
  intro iriOk g n fuel anno ds1 ds2 d st hti hskip hann hid
  simp only [get_target_list]
  rw [runS_bind, runS_liftE, hti]
  dsimp only []
  rw [runS_bind, expand_loop_first_self ds1 iriOk g n
      (get_target_list iriOk g n fuel) anno.id d ds2 st hskip hann hid]

theorem add_annotation_self_not_ok :
    ∀ (iriOk : String → Bool) (g n : String) (fuel : Nat) (doc : Val) (anno : AnnotationObj)
      (ti : List Val) (d : Val),
    annotation_init iriOk g n doc = Except.ok anno →
    get_targets_info fuel anno.data = Except.ok ti → d ∈ ti →
    is_annotation d = Except.ok true → pyGetItem d "id" = Except.ok anno.id →
    NeverOkS (add_annotation_es iriOk g n (fuel + 1) doc) := by
  intro iriOk g n fuel doc anno ti d hinit hti hmem hann hid
  have hGTL : NeverOkS (get_target_list iriOk g n (fuel + 1) anno) :=
    get_target_list_self_not_ok iriOk g n fuel anno ti d hti hmem hann hid
  simp only [add_annotation_es]
  intro st r st' hc
  rw [runS_bind, runS_liftE, hinit] at hc
  dsimp only [] at hc
  exact (neverOk_ite _
    (neverOk_bind_all fun idv => neverOk_bind_all fun tyv => neverOk_bind_all fun dty =>
      neverOk_bind_all fun st0 => neverOk_bind_all fun u => neverOk_bind_left hGTL _)
    (neverOk_bind_all fun u => neverOk_bind_left hGTL _)) st r st' hc

theorem update_annotation_self_not_ok :
    ∀ (iriOk : String → Bool) (g n : String) (fuel : Nat) (updated uid body0 : Val)
      (anno0 anno2 : AnnotationObj) (ti : List Val) (d : Val) (st : ESStore),
    pyGetItem updated "id" = Except.ok uid →
    get_from_index st uid "Annotation" = Except.ok body0 →
    annotation_init iriOk g n body0 = Except.ok anno0 →
    AnnotationObj.update anno0 iriOk n updated = Except.ok anno2 →
    get_targets_info fuel anno2.data = Except.ok ti → d ∈ ti →
    is_annotation d = Except.ok true → pyGetItem d "id" = Except.ok anno2.id →
    ∀ (r : Val) (st' : ESStore),
      runS (update_annotation_es iriOk g n (fuel + 2) updated) st ≠ (Except.ok r, st') := by
  intro iriOk g n fuel updated uid body0 anno0 anno2 ti d st huid hgfi hinit hupd hti hmem hann hid r st' hc
  have hGTL : NeverOkS (get_target_list iriOk g n (fuel + 1) anno2) :=
    get_target_list_self_not_ok iriOk g n fuel anno2 ti d hti hmem hann hid
  rw [show (fuel + 2) = (fuel + 1) + 1 from rfl] at hc
  simp only [update_annotation_es] at hc
  rw [runS_bind, runS_liftE, huid] at hc
  dsimp only [] at hc
  rw [runS_bind, runS_get] at hc
  dsimp only [] at hc
  rw [runS_bind, runS_liftE, hgfi] at hc
  dsimp only [] at hc
  rw [runS_bind] at hc
  rcases hold : runS (liftE (pyGetItem body0 "target_list")) st with ⟨ro, st1⟩
  rw [hold] at hc
  cases ro with
  | error e => cases hc
  | ok a =>
    dsimp only [] at hc
    rw [runS_bind, runS_liftE, hinit] at hc
    dsimp only [] at hc
    rw [runS_bind, runS_liftE, hupd] at hc
    dsimp only [] at hc
    rw [runS_bind] at hc
    rcases hx : runS (get_target_list iriOk g n (fuel + 1) anno2) st1 with ⟨rx, st2⟩
    rw [hx] at hc
    cases rx with
    | ok a2 => exact hGTL st1 a2 st2 hx
    | error e => cases hc

end SWAS

namespace SWAS

/-- Counterexample for C2: an annotation whose direct target is an untyped
reference string equal to its own id passes closure computation without any
self-targeting error, because the self check in get_target_list runs only for
targets whose type marks them as Annotation. -/
theorem untyped_self_target_counterexample :
    Val.get selfDoc "id" = some (Val.vstr ("urn:s")) ∧
    Val.get selfDoc "target" = some (Val.vstr ("urn:s")) ∧
    closure_of_new iriAll "g" "t0" 10 st0 selfDoc
      = Except.ok [Val.vdict [("id", Val.vstr ("urn:s"))]] := ⟨rfl, rfl, rfl⟩

/-- C1: refuted. In get_target_list, deeper descriptors obtained from a
referenced annotation are merged with the test `target not in target_ids`,
which compares a descriptor dict against a list of id values and is therefore
always true; a descriptor whose id (urn:r) is already present in the result
is appended again, so the returned closure contains two descriptors with the
same id. -/
theorem closure_merge_keeps_duplicate_ids :
    closure_of_new iriAll "g" "t0" 10 st0 xDoc
      = Except.ok [Val.vdict [("id", Val.vstr ("urn:a")), ("type", Val.vstr ("Annotation"))],
                   Val.vdict [("id", Val.vstr ("urn:r"))],
                   Val.vdict [("id", Val.vstr ("urn:r"))]] := rfl

/-- C2 (corrected): for an annotation-TYPED direct target whose id equals the
annotation's own id, closure computation never succeeds (i), and when such a
target is the first annotation-typed descriptor it fails precisely with the
AnnotationError "Annotation cannot target itself" (ii); hence creation via
add_annotation_es (iii) and update via update_annotation_es (iv) of such an
annotation never succeed. The self check fires only for targets that
is_annotation classifies as typed annotations; an untyped self-reference
passes (see the counterexample). -/
theorem typed_self_target_fails_closure :
    (∀ (iriOk : String → Bool) (g n : String) (fuel : Nat) (anno : AnnotationObj)
       (ti : List Val) (d : Val) (st : ESStore) (r : List Val) (st' : ESStore),
       get_targets_info fuel anno.data = Except.ok ti → d ∈ ti →
       is_annotation d = Except.ok true → pyGetItem d "id" = Except.ok anno.id →
       runS (get_target_list iriOk g n (fuel + 1) anno) st ≠ (Except.ok r, st'))
  ∧ (∀ (iriOk : String → Bool) (g n : String) (fuel : Nat) (anno : AnnotationObj)
       (ds1 ds2 : List Val) (d : Val) (st : ESStore),
       get_targets_info fuel anno.data = Except.ok (ds1 ++ d :: ds2) →
       (∀ d' ∈ ds1, is_annotation d' = Except.ok false) →
       is_annotation d = Except.ok true → pyGetItem d "id" = Except.ok anno.id →
       runS (get_target_list iriOk g n (fuel + 1) anno) st
         = (Except.error (annoErr ("Annotation cannot target itself")), st))
  ∧ (∀ (iriOk : String → Bool) (g n : String) (fuel : Nat) (doc : Val) (anno : AnnotationObj)
       (ti : List Val) (d : Val) (st : ESStore) (r : Val) (st' : ESStore),
       annotation_init iriOk g n doc = Except.ok anno →
       get_targets_info fuel anno.data = Except.ok ti → d ∈ ti →
       is_annotation d = Except.ok true → pyGetItem d "id" = Except.ok anno.id →
       runS (add_annotation_es iriOk g n (fuel + 1) doc) st ≠ (Except.ok r, st'))
  ∧ (∀ (iriOk : String → Bool) (g n : String) (fuel : Nat) (updated uid body0 : Val)
       (anno0 anno2 : AnnotationObj) (ti : List Val) (d : Val) (st : ESStore)
       (r : Val) (st' : ESStore),
       pyGetItem updated "id" = Except.ok uid →
       get_from_index st uid "Annotation" = Except.ok body0 →
       annotation_init iriOk g n body0 = Except.ok anno0 →
       AnnotationObj.update anno0 iriOk n updated = Except.ok anno2 →
       get_targets_info fuel anno2.data = Except.ok ti → d ∈ ti →
       is_annotation d = Except.ok true → pyGetItem d "id" = Except.ok anno2.id →
       runS (update_annotation_es iriOk g n (fuel + 2) updated) st ≠ (Except.ok r, st')) := by
  refine ⟨?_, ?_, ?_, ?_⟩
  · intro iriOk g n fuel anno ti d st r st' hti hmem hann hid
    exact get_target_list_self_not_ok iriOk g n fuel anno ti d hti hmem hann hid st r st'
  · intro iriOk g n fuel anno ds1 ds2 d st hti hskip hann hid
    exact get_target_list_self_error iriOk g n fuel anno ds1 ds2 d st hti hskip hann hid
  · intro iriOk g n fuel doc anno ti d st r st' hinit hti hmem hann hid
    exact add_annotation_self_not_ok iriOk g n fuel doc anno ti d hinit hti hmem hann hid st r st'
  · intro iriOk g n fuel updated uid body0 anno0 anno2 ti d st r st' huid hgfi hinit hupd hti hmem hann hid
    exact update_annotation_self_not_ok iriOk g n fuel updated uid body0 anno0 anno2 ti d st
      huid hgfi hinit hupd hti hmem hann hid r st'

/-- Witness for C2: a concrete annotation with a typed self-target fails
closure computation with the self-targeting AnnotationError. -/
theorem typed_self_target_witness :
    runS (get_target_list iriAll "g" "t0" (5 + 1) selfObj2) st0
      = (Except.error (annoErr ("Annotation cannot target itself")), st0) :=
  typed_self_target_fails_closure.2.1 iriAll "g" "t0" 5 selfObj2 []
    [] (Val.vdict [("id", Val.vstr ("urn:s")), ("type", Val.vstr ("Annotation"))]) st0
    rfl (fun d' hd' => absurd hd' (List.not_mem_nil d')) rfl rfl

end SWAS

namespace SWAS

theorem stateInv_bind {α β : Type} {x : StoreM α} {f : α → StoreM β}
    (hx : StateInv x) (hf : ∀ a, StateInv (f a)) : StateInv (x >>= f) := by
  intro st
  rw [runS_bind]
  rcases hres : runS x st with ⟨rx, st1⟩
  have h1 : st1 = st := by
    have h := hx st; rw [hres] at h; exact h
  cases rx with
  | ok a =>
    dsimp only []
    rw [hf a st1, h1]
  | error e =>
    dsimp only []
    exact h1

theorem stateInv_liftE {α : Type} (e : Except PyExc α) : StateInv (liftE e) := by
  intro st
  rw [runS_liftE]
  cases e <;> rfl

theorem stateInv_get : StateInv (get : StoreM ESStore) := fun _ => rfl

theorem stateInv_pure {α : Type} (a : α) : StateInv (pure a : StoreM α) := fun _ => rfl

theorem get_annotation_es_snd (id : Val) (st : ESStore) :
    (runS (get_annotation_es id) st).2 = check_index_is_fresh st := by
  simp only [get_annotation_es]
  rw [runS_bind, runS_modify]
  dsimp only []
  exact stateInv_bind stateInv_get (fun s =>
    stateInv_bind (stateInv_liftE _) (fun _ =>
      stateInv_bind (stateInv_liftE _) (fun body => stateInv_liftE _)))
    (check_index_is_fresh st)

theorem get_collection_es_snd (cid : Val) (st : ESStore) :
    (runS (get_collection_es cid) st).2 = check_index_is_fresh st := by
  simp only [get_collection_es]
  rw [runS_bind, runS_modify]
  dsimp only []
  exact stateInv_bind stateInv_get (fun s =>
    stateInv_bind (stateInv_liftE _) (fun _ => stateInv_liftE _))
    (check_index_is_fresh st)

theorem get_by_target_es_snd (t : Val) (st : ESStore) :
    (runS (get_annotations_by_target_es t) st).2 = check_index_is_fresh st := by
  simp only [get_annotations_by_target_es]
  rw [runS_bind, runS_modify]
  dsimp only []
  exact stateInv_bind stateInv_get (fun s =>
    stateInv_bind (stateInv_liftE _) (fun docs => stateInv_liftE _))
    (check_index_is_fresh st)

theorem check_flag_props (st : ESStore) :
    (check_index_is_fresh st).needs_refresh = false ∧
    (check_index_is_fresh st).refresh_count
      = st.refresh_count + (if st.needs_refresh = true then 1 else 0) ∧
    (check_index_is_fresh st).docs = st.docs := by
  cases hb : st.needs_refresh with
  | true =>
    simp [check_index_is_fresh, index_needs_refresh, index_refresh, es_indices_refresh, hb]
  | false =>
    simp [check_index_is_fresh, index_needs_refresh, index_refresh, es_indices_refresh, hb]

theorem endsDirty_bind {α β : Type} {x : StoreM α} {f : α → StoreM β}
    (hf : ∀ a, EndsDirty (f a)) : EndsDirty (x >>= f) := by
  intro st r st' hc
  rw [runS_bind] at hc
  rcases hres : runS x st with ⟨rx, st1⟩
  rw [hres] at hc
  cases rx with
  | ok a => exact hf a st1 r st' hc
  | error e => cases hc

theorem endsDirty_throw {α : Type} (e : PyExc) : EndsDirty (throw e : StoreM α) := by
  intro st r st' hc
  rw [runS_throw] at hc
  cases hc

theorem endsDirty_ite {α : Type} (c : Prop) [Decidable c] {A B : StoreM α}
    (hA : EndsDirty A) (hB : EndsDirty B) : EndsDirty (if c then A else B) := by
  by_cases h : c
  · rw [if_pos h]; exact hA
  · rw [if_neg h]; exact hB

theorem endsDirty_tail {α : Type} (v : α) :
    EndsDirty ((modify set_index_needs_refresh : StoreM PUnit) >>= fun _ => pure v) := by
  intro st r st' hc
  rw [runS_bind, runS_modify] at hc
  dsimp only [] at hc
  rw [runS_pure] at hc
  injection hc with h1 h2
  rw [← h2]
  rfl

theorem add_annotation_es_sets_flag (iriOk : String → Bool) (g n : String) (fuel : Nat)
    (doc : Val) : EndsDirty (add_annotation_es iriOk g n fuel doc) := by
  simp only [add_annotation_es]
  exact endsDirty_bind fun anno => endsDirty_ite _
    (endsDirty_bind fun idv => endsDirty_bind fun tyv => endsDirty_bind fun dty =>
      endsDirty_bind fun s => endsDirty_bind fun u =>
      endsDirty_bind fun tl => endsDirty_bind fun data1 => endsDirty_bind fun tyv2 =>
      endsDirty_bind fun dty2 => endsDirty_bind fun s2 => endsDirty_bind fun st2 =>
      endsDirty_bind fun _ => endsDirty_bind fun data2 => endsDirty_tail data2)
    (endsDirty_bind fun u =>
      endsDirty_bind fun tl => endsDirty_bind fun data1 => endsDirty_bind fun tyv2 =>
      endsDirty_bind fun dty2 => endsDirty_bind fun s2 => endsDirty_bind fun st2 =>
      endsDirty_bind fun _ => endsDirty_bind fun data2 => endsDirty_tail data2)

theorem update_annotation_es_sets_flag (iriOk : String → Bool) (g n : String) (fuel : Nat)
    (updated : Val) : EndsDirty (update_annotation_es iriOk g n fuel updated) := by
  cases fuel with
  | zero =>
    simp only [update_annotation_es]
    exact endsDirty_throw _
  | succ fuel =>
    simp only [update_annotation_es]
    exact endsDirty_bind fun uid => endsDirty_bind fun s => endsDirty_bind fun body0 =>
      endsDirty_bind fun old_tl => endsDirty_bind fun anno => endsDirty_bind fun anno2 =>
      endsDirty_bind fun new_tl => endsDirty_bind fun data1 => endsDirty_bind fun tyv =>
      endsDirty_bind fun dty => endsDirty_bind fun st1 => endsDirty_bind fun st2 =>
      endsDirty_bind fun _ => endsDirty_bind fun changed => endsDirty_ite _
        (endsDirty_bind fun _ => endsDirty_bind fun data2 => endsDirty_tail data2)
        (endsDirty_bind fun _ => endsDirty_bind fun data2 => endsDirty_tail data2)

theorem add_to_collection_sets_flag (aid cid : Val) :
    EndsDirty (add_annotation_to_collection_es aid cid) := by
  simp only [add_annotation_to_collection_es]
  exact endsDirty_bind fun s => endsDirty_bind fun _ => endsDirty_bind fun _ =>
    endsDirty_bind fun coll => endsDirty_bind fun items => endsDirty_bind fun mem =>
    endsDirty_ite _
      (endsDirty_bind fun _ =>
        endsDirty_bind fun items2 => endsDirty_bind fun coll2 =>
        endsDirty_bind fun items3 => endsDirty_bind fun nn =>
        endsDirty_bind fun coll3 => endsDirty_bind fun s2 => endsDirty_bind fun st3 =>
        endsDirty_bind fun _ => endsDirty_tail _)
      (endsDirty_bind fun _ =>
        endsDirty_bind fun items2 => endsDirty_bind fun coll2 =>
        endsDirty_bind fun items3 => endsDirty_bind fun nn =>
        endsDirty_bind fun coll3 => endsDirty_bind fun s2 => endsDirty_bind fun st3 =>
        endsDirty_bind fun _ => endsDirty_tail _)

theorem kc_bind {α β : Type} {x : StoreM α} {f : α → StoreM β}
    (hx : KeepsClean x) (hf : ∀ a, KeepsClean (f a)) : KeepsClean (x >>= f) := by
  intro st h r st' hc
  rw [runS_bind] at hc
  rcases hres : runS x st with ⟨rx, st1⟩
  rw [hres] at hc
  cases rx with
  | ok a => exact hf a st1 (hx st h a st1 hres) r st' hc
  | error e => cases hc

theorem kc_get_bind {β : Type} {f : ESStore → StoreM β}
    (hf : ∀ s, s.needs_refresh = false → KeepsClean (f s)) :
    KeepsClean ((get : StoreM ESStore) >>= f) := by
  intro st h r st' hc
  rw [runS_bind, runS_get] at hc
  dsimp only [] at hc
  exact hf st h st h r st' hc

theorem kc_liftE_bind {α β : Type} (e : Except PyExc α) {f : α → StoreM β}
    (hf : ∀ a, e = Except.ok a → KeepsClean (f a)) : KeepsClean (liftE e >>= f) := by
  intro st h r st' hc
  rw [runS_bind, runS_liftE] at hc
  cases he : e with
  | ok a =>
    rw [he] at hc
    dsimp only [] at hc
    exact hf a he st h r st' hc
  | error err =>
    rw [he] at hc
    dsimp only [] at hc
    cases hc

theorem kc_liftE {α : Type} (e : Except PyExc α) : KeepsClean (liftE e) := by
  intro st h r st' hc
  rw [runS_liftE] at hc
  cases e with
  | ok a =>
    dsimp only [] at hc
    injection hc with h1 h2
    rw [← h2]
    exact h
  | error err =>
    dsimp only [] at hc
    cases hc

theorem kc_set_bind {β : Type} {s : ESStore} (hs : s.needs_refresh = false)
    {k : PUnit → StoreM β} (hk : ∀ u, KeepsClean (k u)) :
    KeepsClean ((set s : StoreM PUnit) >>= k) := by
  intro st h r st' hc
  rw [runS_bind, runS_set] at hc
  dsimp only [] at hc
  exact hk PUnit.unit s hs r st' hc

theorem kc_pure {α : Type} (a : α) : KeepsClean (pure a : StoreM α) := by
  intro st h r st' hc
  rw [runS_pure] at hc
  injection hc with h1 h2
  rw [← h2]
  exact h

theorem kc_throw {α : Type} (e : PyExc) : KeepsClean (throw e : StoreM α) := by
  intro st h r st' hc
  rw [runS_throw] at hc
  cases hc

theorem kc_ite {α : Type} (c : Prop) [Decidable c] {A B : StoreM α}
    (hA : KeepsClean A) (hB : KeepsClean B) : KeepsClean (if c then A else B) := by
  by_cases h : c
  · rw [if_pos h]; exact hA
  · rw [if_neg h]; exact hB

theorem remove_from_index_flag {st : ESStore} {id : Val} {d : String} {st2 : ESStore}
    (h : remove_from_index st id d = Except.ok st2) :
    st2.needs_refresh = st.needs_refresh := by
  simp only [remove_from_index] at h
  cases hse : should_exist st id d with
  | ok u =>
    rw [hse, except_bind_ok] at h
    cases h
    rfl
  | error e =>
    rw [hse, except_bind_err] at h
    cases h

theorem add_to_index_flag {st : ESStore} {doc : Val} {d : String} {st2 : ESStore}
    (h : add_to_index st doc d = Except.ok st2) :
    st2.needs_refresh = st.needs_refresh := by
  simp only [add_to_index] at h
  rcases (bind_ok_iff _ _ _).mp h with ⟨idv, hidv, h2⟩
  rcases (bind_ok_iff _ _ _).mp h2 with ⟨u, hu, h3⟩
  cases h3
  rfl

theorem update_in_index_flag {st : ESStore} {doc : Val} {d : String} {st2 : ESStore}
    (h : update_in_index st doc d = Except.ok st2) :
    st2.needs_refresh = st.needs_refresh := by
  simp only [update_in_index] at h
  rcases (bind_ok_iff _ _ _).mp h with ⟨idv, hidv, h2⟩
  rcases (bind_ok_iff _ _ _).mp h2 with ⟨u, hu, h3⟩
  cases h3
  rfl

theorem remove_collection_es_clean (cid : Val) (st : ESStore) (r : Val) (st' : ESStore)
    (hc : runS (remove_collection_es cid) st = (Except.ok r, st')) :
    st'.needs_refresh = false := by
  simp only [remove_collection_es] at hc
  rw [runS_bind, runS_modify] at hc
  dsimp only [] at hc
  exact (kc_get_bind fun s1 h1 =>
    kc_bind (kc_liftE _) fun _ =>
    kc_get_bind fun s2 h2 =>
    kc_liftE_bind _ fun stD hD =>
    kc_set_bind (by rw [remove_from_index_flag hD, h2]) fun _ =>
    kc_get_bind fun s3 h3 =>
    kc_liftE_bind _ fun stA hA =>
    kc_set_bind (by rw [add_to_index_flag hA, h3]) fun _ =>
    kc_pure _) (check_index_is_fresh st) (check_flag_props st).1 r st' hc

theorem remove_from_collection_es_clean (aid cid : Val) (st : ESStore) (r : Val)
    (st' : ESStore)
    (hc : runS (remove_annotation_from_collection_es aid cid) st = (Except.ok r, st')) :
    st'.needs_refresh = false := by
  simp only [remove_annotation_from_collection_es] at hc
  rw [runS_bind, runS_modify] at hc
  dsimp only [] at hc
  have hJ : ∀ (coll y : Val), KeepsClean (do
      let coll2 ← liftE (pySetItem coll "items" y)
      let items3 ← liftE (pyGetItem coll2 "items")
      let n ← liftE (pyLen items3)
      let coll3 ← liftE (pySetItem coll2 "total" (Val.vint n))
      let st2 ← (get : StoreM ESStore)
      let st3 ← liftE (update_in_index st2 coll3 "AnnotationCollection")
      set st3
      pure coll3) := by
    intro coll y
    exact kc_bind (kc_liftE _) fun coll2 =>
      kc_bind (kc_liftE _) fun items3 =>
      kc_bind (kc_liftE _) fun nn =>
      kc_bind (kc_liftE _) fun coll3 =>
      kc_get_bind fun s2 h2 =>
      kc_liftE_bind _ fun stU hU =>
      kc_set_bind (by rw [update_in_index_flag hU, h2]) fun _ =>
      kc_pure _
  refine (kc_get_bind fun s1 h1 =>
    kc_bind (kc_liftE _) fun _ =>
    kc_bind (kc_liftE _) fun _ =>
    kc_bind (kc_liftE _) fun coll =>
    kc_bind (kc_liftE _) fun items => ?_)
    (check_index_is_fresh st) (check_flag_props st).1 r st' hc
  cases items with
  | vlist xs =>
    exact kc_ite _ (kc_bind (kc_pure _) fun y => hJ coll y)
      (kc_bind (kc_throw _) fun y => hJ coll y)
  | vstr s => exact kc_bind (kc_throw _) fun y => hJ coll y
  | vint i => exact kc_bind (kc_throw _) fun y => hJ coll y
  | vbool b => exact kc_bind (kc_throw _) fun y => hJ coll y
  | vnull => exact kc_bind (kc_throw _) fun y => hJ coll y
  | vdict fs => exact kc_bind (kc_throw _) fun y => hJ coll y

end SWAS

namespace SWAS

/-- C5 (corrected): the readers get_annotation_es, get_collection_es and
get_annotations_by_target_es all first run check_index_is_fresh — their final
state is exactly `check_index_is_fresh st` (i-iii), which clears the dirty
flag, refreshes exactly when the flag was set, and leaves the documents
untouched (iv); the writers add_annotation_es, update_annotation_es and
add_annotation_to_collection_es set the dirty flag on every success (v-vii);
but the writers remove_annotation_from_collection_es and remove_collection_es
never leave the flag set — every successful run ends with a clean flag
(viii-ix), so these two writes do not set the dirty flag as the spec
promises for all writes. -/
theorem dirty_flag_discipline :
    (∀ (id : Val) (st : ESStore),
       (runS (get_annotation_es id) st).2 = check_index_is_fresh st)
  ∧ (∀ (cid : Val) (st : ESStore),
       (runS (get_collection_es cid) st).2 = check_index_is_fresh st)
  ∧ (∀ (t : Val) (st : ESStore),
       (runS (get_annotations_by_target_es t) st).2 = check_index_is_fresh st)
  ∧ (∀ st : ESStore, (check_index_is_fresh st).needs_refresh = false
       ∧ (check_index_is_fresh st).refresh_count
           = st.refresh_count + (if st.needs_refresh = true then 1 else 0)
       ∧ (check_index_is_fresh st).docs = st.docs)
  ∧ (∀ (iriOk : String → Bool) (g n : String) (fuel : Nat) (doc : Val) (st : ESStore)
       (r : Val) (st' : ESStore),
       runS (add_annotation_es iriOk g n fuel doc) st = (Except.ok r, st')
         → st'.needs_refresh = true)
  ∧ (∀ (iriOk : String → Bool) (g n : String) (fuel : Nat) (updated : Val) (st : ESStore)
       (r : Val) (st' : ESStore),
       runS (update_annotation_es iriOk g n fuel updated) st = (Except.ok r, st')
         → st'.needs_refresh = true)
  ∧ (∀ (aid cid : Val) (st : ESStore) (r : Val) (st' : ESStore),
       runS (add_annotation_to_collection_es aid cid) st = (Except.ok r, st')
         → st'.needs_refresh = true)
  ∧ (∀ (aid cid : Val) (st : ESStore) (r : Val) (st' : ESStore),
       runS (remove_annotation_from_collection_es aid cid) st = (Except.ok r, st')
         → st'.needs_refresh = false)
  ∧ (∀ (cid : Val) (st : ESStore) (r : Val) (st' : ESStore),
       runS (remove_collection_es cid) st = (Except.ok r, st')
         → st'.needs_refresh = false) :=
  ⟨get_annotation_es_snd, get_collection_es_snd, get_by_target_es_snd, check_flag_props,
   fun iriOk g n fuel doc st r st' hc =>
     add_annotation_es_sets_flag iriOk g n fuel doc st r st' hc,
   fun iriOk g n fuel updated st r st' hc =>
     update_annotation_es_sets_flag iriOk g n fuel updated st r st' hc,
   fun aid cid st r st' hc => add_to_collection_sets_flag aid cid st r st' hc,
   remove_from_collection_es_clean, remove_collection_es_clean⟩

/-- Counterexample for C5: remove_collection_es is a write (it replaces the
stored collection body with a tombstone) whose successful run ends with the
dirty flag clear, so not every write sets the flag. -/
theorem dirty_flag_counterexample :
    runS (remove_collection_es (.vstr ("urn:c"))) stC
      = (Except.ok remCollDeleted, remCollFinal)
    ∧ remCollFinal.docs.map (fun d => d.body) = [remCollDeleted]
    ∧ stC.docs.map (fun d => d.body) = [collBody]
    ∧ remCollDeleted ≠ collBody
    ∧ remCollFinal.needs_refresh = false :=
  ⟨rfl, rfl, rfl, by decide, rfl⟩

/-- Witness for C5: the flag-clearing clause applied to a concrete
successful removal of the stored collection. -/
theorem dirty_flag_witness :
    runS (remove_collection_es (.vstr ("urn:c"))) stC
        = (Except.ok remCollDeleted, remCollFinal)
    ∧ remCollFinal.needs_refresh = false :=
  ⟨rfl, dirty_flag_discipline.2.2.2.2.2.2.2.2 (.vstr ("urn:c")) stC
      remCollDeleted remCollFinal rfl⟩

end SWAS

namespace SWAS

theorem merge_targets_prefix :
    ∀ (ds tl tids res : List Val), merge_targets tl tids ds = Except.ok res →
      ∃ suf, res = tl ++ suf := by
  intro ds
  induction ds with
  | nil =>
    intro tl tids res h
    simp only [merge_targets] at h
    cases h
    exact ⟨[], (List.append_nil tl).symm⟩
  | cons t ts ih =>
    intro tl tids res h
    simp only [merge_targets] at h
    by_cases hc : (!(tids.contains t)) = true
    · rw [if_pos hc] at h
      cases hid : pyGetItem t "id" with
      | ok tid =>
        rw [hid, except_bind_ok] at h
        rcases ih (tl ++ [t]) (tids ++ [tid]) res h with ⟨suf, hsuf⟩
        exact ⟨t :: suf, by rw [hsuf, List.append_assoc]; rfl⟩
      | error e =>
        rw [hid, except_bind_err] at h
        cases h
    · rw [if_neg hc] at h
      exact ih tl tids res h

theorem gtl_keeps_direct :
    ∀ (iriOk : String → Bool) (g n : String) (fuel : Nat) (anno : AnnotationObj)
      (st : ESStore) (res : List Val) (st' : ESStore),
    runS (get_target_list iriOk g n (fuel + 1) anno) st = (Except.ok res, st') →
    ∃ (ti suf : List Val),
      get_targets_info fuel anno.data = Except.ok ti ∧ res = ti ++ suf := by
  intro iriOk g n fuel anno st res st' h
  simp only [get_target_list] at h
  rw [runS_bind, runS_liftE] at h
  cases hti : get_targets_info fuel anno.data with
  | error e => rw [hti] at h; dsimp only [] at h; cases h
  | ok ti =>
    rw [hti] at h
    dsimp only [] at h
    rw [runS_bind] at h
    rcases hx : runS (expand_loop iriOk g n (get_target_list iriOk g n fuel) anno.id ti) st
      with ⟨rx, st1⟩
    rw [hx] at h
    cases rx with
    | error e => cases h
    | ok deeper =>
      dsimp only [] at h
      rw [runS_bind, runS_liftE] at h
      cases hmi : mapGetIds ti with
      | error e => rw [hmi] at h; dsimp only [] at h; cases h
      | ok tids =>
        rw [hmi] at h
        dsimp only [] at h
        rw [runS_liftE] at h
        cases hm : merge_targets ti tids deeper with
        | error e => rw [hm] at h; dsimp only [] at h; cases h
        | ok res2 =>
          rw [hm] at h
          dsimp only [] at h
          injection h with h1 h2
          injection h1 with h1
          rcases merge_targets_prefix deeper ti tids res2 hm with ⟨suf, hsuf⟩
          exact ⟨ti, suf, rfl, by rw [← h1, hsuf]⟩

theorem expand_loop_skips_tombstone :
    ∀ (iriOk : String → Bool) (g n : String) (gtl : AnnotationObj → StoreM (List Val))
      (aid d tid : Val) (ts : List Val) (st : ESStore),
    is_annotation d = Except.ok true → pyGetItem d "id" = Except.ok tid →
    (tid == aid) = false → is_deleted st tid "_all" = true →
    runS (expand_loop iriOk g n gtl aid (d :: ts)) st
      = runS (expand_loop iriOk g n gtl aid ts) st := by
  intro iriOk g n gtl aid d tid ts st hann hid hne hdel
  simp only [expand_loop]
  rw [runS_bind, runS_liftE, hann]
  dsimp only []
  rw [if_pos rfl]
  rw [runS_bind, runS_liftE, hid]
  dsimp only []
  have hbne : ¬ ((tid == aid) = true) := by rw [hne]; exact Bool.false_ne_true
  rw [if_neg hbne]
  rw [runS_bind, runS_get]
  dsimp only []
  rw [if_pos hdel]
  rw [runS_bind, runS_pure]
  dsimp only []
  rw [runS_bind]
  rcases hrest : runS (expand_loop iriOk g n gtl aid ts) st with ⟨rr, str⟩
  cases rr with
  | ok a =>
    dsimp only []
    rw [runS_pure]
    rw [List.nil_append]
  | error e => rfl

end SWAS

namespace SWAS

theorem storeAgree_fields {s1 s2 : ESStore} (h : storeAgree s1 s2 = true) :
    s1.needs_refresh = s2.needs_refresh ∧ s1.refresh_count = s2.refresh_count ∧
    docsAgree s1.docs s2.docs = true := by
  simp only [storeAgree, Bool.and_eq_true, beq_iff_eq] at h
  exact ⟨h.1.1, h.1.2, h.2⟩

theorem docAgree_fields {d1 d2 : ESDoc} (h : docAgree d1 d2 = true) :
    d1.docId = d2.docId ∧ d1.dtype = d2.dtype ∧
    tombstoned d1.body = tombstoned d2.body ∧
    (tombstoned d1.body = true ∨ d1.body = d2.body) := by
  simp only [docAgree, Bool.and_eq_true, Bool.or_eq_true] at h
  refine ⟨(Val.beq_iff _ _).1 h.1.1.1, beq_iff_eq.mp h.1.1.2, beq_iff_eq.mp h.1.2, ?_⟩
  rcases h.2 with ht | hb
  · exact Or.inl ht
  · exact Or.inr ((Val.beq_iff _ _).1 hb)

theorem es_any_agree (id : Val) (t : String) :
    ∀ l1 l2 : List ESDoc, docsAgree l1 l2 = true →
      l1.any (es_doc_matches id t) = l2.any (es_doc_matches id t) := by
  intro l1
  induction l1 with
  | nil =>
    intro l2 h
    cases l2 with
    | nil => rfl
    | cons d2 t2 => simp [docsAgree] at h
  | cons d1 t1 ih =>
    intro l2 h
    cases l2 with
    | nil => simp [docsAgree] at h
    | cons d2 t2 =>
      simp only [docsAgree, Bool.and_eq_true] at h
      obtain ⟨hd, ht⟩ := h
      obtain ⟨h1, h2, _, _⟩ := docAgree_fields hd
      simp only [List.any_cons, es_doc_matches, h1, h2, ih t2 ht]

theorem docsAgree_matches (id : Val) (t : String) :
    ∀ l1 l2 : List ESDoc, docsAgree l1 l2 = true →
      (l1.find? (es_doc_matches id t) = none ∧ l2.find? (es_doc_matches id t) = none) ∨
      (∃ d1 d2, l1.find? (es_doc_matches id t) = some d1 ∧
        l2.find? (es_doc_matches id t) = some d2 ∧ docAgree d1 d2 = true) := by
  intro l1
  induction l1 with
  | nil =>
    intro l2 h
    cases l2 with
    | nil => exact Or.inl ⟨rfl, rfl⟩
    | cons d2 t2 => simp [docsAgree] at h
  | cons d1 t1 ih =>
    intro l2 h
    cases l2 with
    | nil => simp [docsAgree] at h
    | cons d2 t2 =>
      simp only [docsAgree, Bool.and_eq_true] at h
      obtain ⟨hd, ht⟩ := h
      have hm : es_doc_matches id t d2 = es_doc_matches id t d1 := by
        obtain ⟨h1, h2, _, _⟩ := docAgree_fields hd
        simp [es_doc_matches, h1, h2]
      cases hmm : es_doc_matches id t d1 with
      | true =>
        refine Or.inr ⟨d1, d2, ?_, ?_, hd⟩
        · simp only [List.find?, hmm]
        · rw [hmm] at hm
          simp only [List.find?, hm]
      | false =>
        rw [hmm] at hm
        have hstep1 : (d1 :: t1).find? (es_doc_matches id t) = t1.find? (es_doc_matches id t) := by
          simp only [List.find?, hmm]
        have hstep2 : (d2 :: t2).find? (es_doc_matches id t) = t2.find? (es_doc_matches id t) := by
          simp only [List.find?, hm]
        rw [hstep1, hstep2]
        exact ih t2 ht

theorem es_exists_agree (id : Val) (t : String) {s1 s2 : ESStore}
    (h : storeAgree s1 s2 = true) : es_exists s1 id t = es_exists s2 id t :=
  es_any_agree id t s1.docs s2.docs (storeAgree_fields h).2.2

theorem is_deleted_agree (id : Val) (t : String) {s1 s2 : ESStore}
    (h : storeAgree s1 s2 = true) : is_deleted s1 id t = is_deleted s2 id t := by
  unfold is_deleted es_get
  rcases docsAgree_matches id t s1.docs s2.docs (storeAgree_fields h).2.2 with
    ⟨h1, h2⟩ | ⟨d1, d2, h1, h2, hda⟩
  · rw [h1, h2]
  · rw [h1, h2]
    simp only [Option.map_some']
    exact (docAgree_fields hda).2.2.1

theorem should_exist_agree (id : Val) (t : String) {s1 s2 : ESStore}
    (h : storeAgree s1 s2 = true) : should_exist s1 id t = should_exist s2 id t := by
  unfold should_exist
  rw [es_exists_agree id t h, is_deleted_agree id t h]

theorem should_exist_ok_not_deleted {st : ESStore} {id : Val} {t : String} {u : Unit}
    (h : should_exist st id t = Except.ok u) : is_deleted st id t = false := by
  unfold should_exist at h
  by_cases hc : (es_exists st id t && !(is_deleted st id t)) = true
  · simp only [Bool.and_eq_true, Bool.not_eq_true'] at hc
    exact hc.2
  · rw [if_neg hc] at h
    cases h

theorem get_from_index_agree (id : Val) (t : String) {s1 s2 : ESStore}
    (h : storeAgree s1 s2 = true) : get_from_index s1 id t = get_from_index s2 id t := by
  have hse := should_exist_agree id t h
  unfold get_from_index
  cases hv : should_exist s2 id t with
  | error e => rw [hse, hv, except_bind_err, except_bind_err]
  | ok u =>
    rw [hse, hv, except_bind_ok, except_bind_ok]
    have hdel1 : is_deleted s1 id t = false := by
      rw [is_deleted_agree id t h]
      exact should_exist_ok_not_deleted hv
    rcases docsAgree_matches id t s1.docs s2.docs (storeAgree_fields h).2.2 with
      ⟨h1, h2⟩ | ⟨d1, d2, h1, h2, hda⟩
    · unfold es_get
      rw [h1, h2]
    · have hbody : d1.body = d2.body := by
        rcases (docAgree_fields hda).2.2.2 with htomb | heq
        · exfalso
          have hid1 : is_deleted s1 id t = tombstoned d1.body := by
            unfold is_deleted es_get
            rw [h1]
            rfl
          rw [hdel1, htomb] at hid1
          cases hid1
        · exact heq
      unfold es_get
      rw [h1, h2]
      simp only [Option.map_some']
      rw [hbody]

theorem checkFresh_agree :
    ∀ s1 s2 : ESStore, storeAgree s1 s2 = true →
      storeAgree (check_index_is_fresh s1) (check_index_is_fresh s2) = true := by
  intro s1 s2 h
  obtain ⟨hf, hcnt, hd⟩ := storeAgree_fields h
  unfold check_index_is_fresh index_needs_refresh index_refresh es_indices_refresh
  rw [hf]
  by_cases hb : s2.needs_refresh = true
  · rw [if_pos hb, if_pos hb]
    simp [storeAgree, hcnt, hd]
  · rw [if_neg hb, if_neg hb]
    exact h

theorem ar_bind {α β : Type} {x y : StoreM α} {f g : α → StoreM β}
    (hxy : AgreeRun x y) (hfg : ∀ a, AgreeRun (f a) (g a)) :
    AgreeRun (x >>= f) (y >>= g) := by
  intro s1 s2 h
  rw [runS_bind, runS_bind]
  rcases hx : runS x s1 with ⟨rx, sx⟩
  rcases hy : runS y s2 with ⟨ry, sy⟩
  have h1 := hxy s1 s2 h
  rw [hx, hy] at h1
  dsimp only [] at h1
  obtain ⟨hr, hs⟩ := h1
  cases rx with
  | ok a =>
    cases ry with
    | ok b =>
      injection hr with hab
      subst hab
      dsimp only []
      exact hfg a sx sy hs
    | error e => exact Except.noConfusion hr
  | error e =>
    cases ry with
    | ok b => exact Except.noConfusion hr
    | error e2 =>
      injection hr with he
      subst he
      exact ⟨rfl, hs⟩

theorem ar_get {α : Type} {f g : ESStore → StoreM α}
    (h : ∀ s1 s2, storeAgree s1 s2 = true → AgreeRun (f s1) (g s2)) :
    AgreeRun ((get : StoreM ESStore) >>= f) ((get : StoreM ESStore) >>= g) := by
  intro s1 s2 hag
  rw [runS_bind, runS_get, runS_bind, runS_get]
  dsimp only []
  exact h s1 s2 hag s1 s2 hag

theorem ar_liftE {α : Type} (e : Except PyExc α) : AgreeRun (liftE e) (liftE e) := by
  intro s1 s2 h
  rw [runS_liftE, runS_liftE]
  cases e with
  | ok a => exact ⟨rfl, h⟩
  | error err => exact ⟨rfl, h⟩

theorem ar_liftE_eq {α : Type} {e1 e2 : Except PyExc α} (he : e1 = e2) :
    AgreeRun (liftE e1) (liftE e2) := by
  subst he
  exact ar_liftE e1

theorem ar_pure {α : Type} (a : α) : AgreeRun (pure a : StoreM α) (pure a) :=
  fun _ _ h => ⟨rfl, h⟩

theorem ar_throw {α : Type} (e : PyExc) : AgreeRun (throw e : StoreM α) (throw e) :=
  fun _ _ h => ⟨rfl, h⟩

theorem ar_modify {f : ESStore → ESStore}
    (hf : ∀ s1 s2, storeAgree s1 s2 = true → storeAgree (f s1) (f s2) = true) :
    AgreeRun (modify f : StoreM PUnit) (modify f) := by
  intro s1 s2 h
  rw [runS_modify, runS_modify]
  exact ⟨rfl, hf s1 s2 h⟩

theorem ar_ite {α : Type} {c : Prop} [Decidable c] {A B C D : StoreM α}
    (hA : AgreeRun A C) (hB : AgreeRun B D) :
    AgreeRun (if c then A else B) (if c then C else D) := by
  by_cases h : c
  · rw [if_pos h, if_pos h]; exact hA
  · rw [if_neg h, if_neg h]; exact hB

theorem ar_ite_bool {α : Type} {b1 b2 : Bool} (hb : b1 = b2) {A B C D : StoreM α}
    (hA : AgreeRun A C) (hB : AgreeRun B D) :
    AgreeRun (if b1 = true then A else B) (if b2 = true then C else D) := by
  subst hb
  exact ar_ite hA hB

theorem ar_get_annotation_es (id : Val) :
    AgreeRun (get_annotation_es id) (get_annotation_es id) := by
  simp only [get_annotation_es]
  exact ar_bind (ar_modify checkFresh_agree) fun _ =>
    ar_get fun s1 s2 h12 =>
    ar_bind (ar_liftE_eq (should_exist_agree id "Annotation" h12)) fun _ =>
    ar_bind (ar_liftE_eq (get_from_index_agree id "Annotation" h12)) fun body =>
    ar_liftE _

theorem ar_expand_loop (iriOk : String → Bool) (g n : String)
    (gtl : AnnotationObj → StoreM (List Val))
    (hg : ∀ anno, AgreeRun (gtl anno) (gtl anno)) (aid : Val) :
    ∀ ts : List Val,
      AgreeRun (expand_loop iriOk g n gtl aid ts) (expand_loop iriOk g n gtl aid ts) := by
  intro ts
  induction ts with
  | nil =>
    simp only [expand_loop]
    exact ar_pure []
  | cons t ts ih =>
    simp only [expand_loop]
    refine ar_bind (ar_liftE _) fun b => ?_
    refine ar_ite ?_ ?_
    · refine ar_bind (ar_liftE _) fun tid => ?_
      refine ar_ite ?_ ?_
      · exact ar_bind (ar_throw _) fun y => ar_bind ih fun rest => ar_pure _
      · refine ar_get fun s1 s2 h12 => ?_
        refine ar_ite_bool (is_deleted_agree tid "_all" h12) ?_ ?_
        · exact ar_bind (ar_pure _) fun y => ar_bind ih fun rest => ar_pure _
        · exact ar_bind (ar_get_annotation_es tid) fun body =>
            ar_bind (ar_liftE _) fun child =>
            ar_bind (hg child) fun y =>
            ar_bind ih fun rest => ar_pure _
    · exact ar_bind (ar_pure _) fun y => ar_bind ih fun rest => ar_pure _

theorem ar_get_target_list (iriOk : String → Bool) (g n : String) :
    ∀ (fuel : Nat) (anno : AnnotationObj),
      AgreeRun (get_target_list iriOk g n fuel anno)
        (get_target_list iriOk g n fuel anno) := by
  intro fuel
  induction fuel with
  | zero =>
    intro anno
    simp only [get_target_list]
    exact ar_throw _
  | succ fuel ih =>
    intro anno
    simp only [get_target_list]
    exact ar_bind (ar_liftE _) fun ti =>
      ar_bind (ar_expand_loop iriOk g n _ ih anno.id ti) fun deeper =>
      ar_bind (ar_liftE _) fun tids =>
      ar_liftE _

end SWAS

namespace SWAS

/-- C3: tombstoned referenced annotations are terminal leaves of the
closure.  (i) Every successful closure keeps the direct descriptor list as
a prefix of the result, so a tombstoned Annotation-typed descriptor stays
in the result of its level.  (ii) The expansion loop skips a descriptor
whose referenced record is tombstoned entirely: the run over `d :: ts` is
literally the run over `ts` — no deeper descriptors, no state change, no
fetch.  (iii) Closure computation never reads the body of a tombstoned
record: on any two stores that agree except in tombstone bodies it returns
identical results and leaves the stores agreeing. -/
theorem tombstone_terminal_leaf :
    (∀ (iriOk : String → Bool) (g n : String) (fuel : Nat) (anno : AnnotationObj)
       (st : ESStore) (res : List Val) (st' : ESStore),
       runS (get_target_list iriOk g n (fuel + 1) anno) st = (Except.ok res, st') →
       ∃ ti suf, get_targets_info fuel anno.data = Except.ok ti ∧ res = ti ++ suf)
  ∧ (∀ (iriOk : String → Bool) (g n : String) (gtl : AnnotationObj → StoreM (List Val))
       (aid d tid : Val) (ts : List Val) (st : ESStore),
       is_annotation d = Except.ok true → pyGetItem d "id" = Except.ok tid →
       (tid == aid) = false → is_deleted st tid "_all" = true →
       runS (expand_loop iriOk g n gtl aid (d :: ts)) st
         = runS (expand_loop iriOk g n gtl aid ts) st)
  ∧ (∀ (iriOk : String → Bool) (g n : String) (fuel : Nat) (anno : AnnotationObj)
       (s1 s2 : ESStore), storeAgree s1 s2 = true →
       (runS (get_target_list iriOk g n fuel anno) s1).1
         = (runS (get_target_list iriOk g n fuel anno) s2).1
       ∧ storeAgree (runS (get_target_list iriOk g n fuel anno) s1).2
           (runS (get_target_list iriOk g n fuel anno) s2).2 = true) :=
  ⟨gtl_keeps_direct,
   expand_loop_skips_tombstone,
   fun iriOk g n fuel anno s1 s2 h => ar_get_target_list iriOk g n fuel anno s1 s2 h⟩

/-- Witness for C3: over `stT1` the tombstoned target `urn:b` of `urn:t`
is skipped by the expansion loop, and the closure result of `urn:t` is the
same over `stT1` and over `stT2`, whose tombstone body carries leftover
fields (a further target) that expansion would have followed. -/
theorem tombstone_terminal_witness :
    (runS (expand_loop iriAll "g" "t0" (get_target_list iriAll "g" "t0" 5)
        (Val.vstr ("urn:t"))
        ((Val.vdict [("id", Val.vstr ("urn:b")), ("type", Val.vstr ("Annotation"))]) :: []))
        stT1
      = runS (expand_loop iriAll "g" "t0" (get_target_list iriAll "g" "t0" 5)
          (Val.vstr ("urn:t")) []) stT1)
  ∧ ((runS (get_target_list iriAll "g" "t0" 6 tObj) stT1).1
      = (runS (get_target_list iriAll "g" "t0" 6 tObj) stT2).1) :=
  ⟨tombstone_terminal_leaf.2.1 iriAll "g" "t0" (get_target_list iriAll "g" "t0" 5)
      (Val.vstr ("urn:t"))
      (Val.vdict [("id", Val.vstr ("urn:b")), ("type", Val.vstr ("Annotation"))])
      (Val.vstr ("urn:b")) [] stT1 rfl rfl rfl rfl,
   (tombstone_terminal_leaf.2.2 iriAll "g" "t0" 6 tObj stT1 stT2 (by decide)).1⟩

end SWAS
